import Mathlib

/-!
Verification of the anki-mcp tool server (`tools.js` + `index.js`).

The development embeds the generic action-invocation machinery of the
repository:

* `Json` models JavaScript/JSON values as the handlers see them (decoded
  request arguments and decoded AnkiConnect response bodies).  JavaScript
  numbers are modelled as integers: every numeric literal appearing in the
  source or in the claims is an exact integer.
* `invokeAnkiConnect` embeds the sole network primitive of `tools.js`
  (lines 15-51): it builds the request body `{action, params, version}`
  (with the source defaults `params = {}` and `version = 6`), performs one
  POST exchange against the fixed endpoint, and unwraps the
  `{error, result}` envelope.  The network itself is abstracted as an
  `Endpoint` oracle mapping the request to a transport outcome.
* every per-action handler (`handleReplaceTags`, ..., `handleImportPackage`)
  in `tools.js` follows one shape: a sequence of `if (...) throw new
  McpError(ErrorCode.InvalidParams, msg)` argument checks, the construction
  of a `params` object copying specific argument fields, a single
  `invokeAnkiConnect` call, and a single `{content: [{type: "text", text}]}`
  return value.  Each handler is therefore embedded as a `ToolImpl` record
  holding its check list, action name, parameter-copy list and text
  formatter, all transcribed field by field from the source; the shared
  skeleton is the `runTool` function.
* `handleToolCall` embeds the dispatch switch of `tools.js` (lines
  5084-5335); a JavaScript `switch` over distinct string literals is
  first-match lookup, so it is embedded as a lookup in the ordered
  association list `toolRegistry` whose entries appear in the source's case
  order.
* `getTools` embeds the static catalogue (lines 4947-5081); each
  descriptor keeps the tool `name` together with the `required` list and
  the top-level property names of its `inputSchema` (the description
  strings and per-field documentation are omitted: no claim mentions
  them).
* `callToolRequest` embeds the `CallToolRequestSchema` handler of
  `index.js`: `McpError`s are re-thrown to the protocol layer, any other
  exception becomes a soft `isError` content block.

Error taxonomy: the source throws plain `Error`s from three distinct sites
of `invokeAnkiConnect` (transport failure / HTTP status, missing envelope
key, non-null `error` field).  The specification names these
`TransportError`, `ProtocolViolationError` and `RemoteActionError`; the
embedding keeps the classification as the three constructors of
`InvokeError`, each carrying the exact message string the source builds.
-/

/-- JSON / JavaScript runtime values, as decoded by `response.json()` and as
received in `request.params.arguments`.  `undefined` never occurs inside
decoded JSON; an absent object field is modelled by a failing lookup. -/
inductive Json where
  | null
  | bool (b : Bool)
  | num (n : Int)
  | str (s : String)
  | arr (elems : List Json)
  | obj (fields : List (String × Json))

/-- First-match lookup of a key among the fields of a JavaScript object
literal (later duplicate keys never arise in the source's literals). -/
def lookupField : List (String × Json) → String → Option Json
  | [], _ => none
  | (k, v) :: rest, key => if k = key then some v else lookupField rest key

/-- Field access `x?.f` / `x.f` on a JSON value: `none` models the
JavaScript `undefined` produced when the field is absent or the base value
is not an object. -/
def getField : Json → String → Option Json
  | .obj fields, key => lookupField fields key
  | _, _ => none

/-- Field access defaulting to `null`; used only after a validation check
has established that the field is present. -/
def jget (j : Json) (key : String) : Json :=
  (getField j key).getD .null

/-- JavaScript truthiness of a value (`if (x)`).  `NaN` is not
representable in the integer number model, and no claim involves it. -/
def truthy : Json → Bool
  | .null => false
  | .bool b => b
  | .num n => n != 0
  | .str s => s != ""
  | .arr _ => true
  | .obj _ => true

/-- Truthiness of a possibly-absent field (`if (!arguments_?.f)` reads
`undefined` for an absent field, which is falsy). -/
def truthyOpt : Option Json → Bool
  | some v => truthy v
  | none => false

/-- Check `typeof x === 'string'` on a possibly-absent field. -/
def isStringOpt : Option Json → Bool
  | some (.str _) => true
  | _ => false

/-- Check `typeof x === 'number'` on a possibly-absent field. -/
def isNumberOpt : Option Json → Bool
  | some (.num _) => true
  | _ => false

/-- Check `Array.isArray(x)` on a possibly-absent field. -/
def isArrayOpt : Option Json → Bool
  | some (.arr _) => true
  | _ => false

/-- Check `typeof x === 'object'` on a possibly-absent field: in JavaScript
this holds for plain objects, arrays and `null`. -/
def typeofObjectOpt : Option Json → Bool
  | some (.obj _) => true
  | some (.arr _) => true
  | some .null => true
  | _ => false

/-- Whether a JSON value is a string (used to state content-block
properties). -/
def Json.isStr : Json → Bool
  | .str _ => true
  | _ => false

/-- Check `hasOwnProperty(key)` on a decoded reply.  The source only
reaches this test on values for which property probing is defined; on a
JSON object it is exactly key membership, on other values it is `false`. -/
def hasKey (j : Json) (key : String) : Bool :=
  (getField j key).isSome

/-- Escape of one character inside a JSON string literal. -/
def escChar : Char → String
  | '"' => "\\\""
  | '\\' => "\\\\"
  | '\n' => "\\n"
  | '\t' => "\\t"
  | '\r' => "\\r"
  | c => String.singleton c

/-- Escape of a JSON string body. -/
def escString (s : String) : String :=
  String.join (s.toList.map escChar)

mutual

/-- Rendering `JSON.stringify(v, null, 2)` of a decoded result value,
modelled up to insignificant whitespace: every scalar, every array element
and every object field of the value appears in the output, which is what
the round-trip claims rely on. -/
def stringify : Json → String
  | .null => "null"
  | .bool true => "true"
  | .bool false => "false"
  | .num n => toString n
  | .str s => "\"" ++ escString s ++ "\""
  | .arr elems => "[" ++ stringifyElems elems ++ "]"
  | .obj fields => "\x7b" ++ stringifyFields fields ++ "\x7d"

/-- Rendering of the comma-separated element list of a JSON array. -/
def stringifyElems : List Json → String
  | [] => ""
  | [x] => stringify x
  | x :: rest => stringify x ++ "," ++ stringifyElems rest

/-- Rendering of the comma-separated field list of a JSON object. -/
def stringifyFields : List (String × Json) → String
  | [] => ""
  | [(k, v)] => "\"" ++ escString k ++ "\":" ++ stringify v
  | (k, v) :: rest =>
      "\"" ++ escString k ++ "\":" ++ stringify v ++ "," ++ stringifyFields rest

end

mutual

/-- JavaScript `String(v)` conversion, as performed by template-literal
interpolation `${v}` and by `new Error(v)`. -/
def jsToString : Json → String
  | .null => "null"
  | .bool true => "true"
  | .bool false => "false"
  | .num n => toString n
  | .str s => s
  | .arr elems => jsJoinElems elems
  | .obj _ => "[object Object]"

/-- JavaScript `Array.prototype.toString`: elements joined by commas, with
`null` elements rendered as the empty string. -/
def jsJoinElems : List Json → String
  | [] => ""
  | [.null] => ""
  | [x] => jsToString x
  | .null :: rest => "," ++ jsJoinElems rest
  | x :: rest => jsToString x ++ "," ++ jsJoinElems rest

end

/-- Protocol error codes from `@modelcontextprotocol/sdk` used by the
source. -/
inductive ErrorCode where
  | InvalidParams
  | ToolNotFound
deriving Repr, DecidableEq

/-- Typed protocol error (`McpError`) thrown by validation and by the
unknown-tool branch of the dispatcher. -/
structure McpError where
  code : ErrorCode
  message : String
deriving Repr, DecidableEq

/-- Classification of the plain `Error`s thrown by `invokeAnkiConnect`,
by throw site, following the specification's taxonomy: `transport` for a
failed exchange or non-success HTTP status, `protocolViolation` for a
reply missing an envelope key, `remoteAction` for a non-null `error`
field.  Each constructor carries the exact message string the source
builds at that site. -/
inductive InvokeError where
  | transport (message : String)
  | protocolViolation (message : String)
  | remoteAction (message : String)
deriving Repr, DecidableEq

/-- Message carried by an `InvokeError` (the `.message` of the underlying
JavaScript `Error`). -/
def InvokeError.message : InvokeError → String
  | .transport m => m
  | .protocolViolation m => m
  | .remoteAction m => m

/-- Failure of a tool call: either a typed `McpError` (validation,
unknown tool) or a plain `Error` propagated from `invokeAnkiConnect`. -/
inductive CallError where
  | mcp (e : McpError)
  | invoke (e : InvokeError)
deriving Repr, DecidableEq

/-- Fixed AnkiConnect endpoint address (`tools.js` line 6). -/
def ANKI_CONNECT_URL : String := "http://127.0.0.1:8765"

/-- One HTTP POST exchange as `invokeAnkiConnect` constructs it: the
request body `{action, params, version}` sent to the fixed URL. -/
structure Request where
  url : String
  action : String
  params : List (String × Json)
  version : Int

/-- Outcome of the POST exchange, as seen through `fetch`: a rejected
exchange, a reply with a non-success status (`!response.ok`), or a decoded
JSON body. -/
inductive TransportReply where
  | networkFailure (desc : String)
  | httpError (status : Int)
  | ok (body : Json)

/-- The remote endpoint abstracted as an oracle from the request to the
transport outcome.  The source holds no state across calls, so one pure
function models it. -/
def Endpoint : Type := Request → TransportReply

/-- Embedding of `invokeAnkiConnect` (`tools.js` lines 15-51): build the
request body with the source's defaults, perform the single exchange, then
check `response.ok`, the presence of the `error` and `result` envelope
keys, and the truthiness of `data.error`, in the source's order.  Returns
the outcome together with the request that was sent. -/
def invokeAnkiConnect (ep : Endpoint) (action : String)
    (params : List (String × Json) := []) (version : Int := 6) :
    Except InvokeError Json × Request :=
  let req : Request := ⟨ANKI_CONNECT_URL, action, params, version⟩
  (match ep req with
   | .networkFailure desc => .error (.transport desc)
   | .httpError status =>
       .error (.transport ("HTTP error! Status: " ++ toString status))
   | .ok data =>
       if !hasKey data "error" then
         .error (.protocolViolation "Response is missing required error field")
       else if !hasKey data "result" then
         .error (.protocolViolation "Response is missing required result field")
       else if truthy (jget data "error") then
         .error (.remoteAction (jsToString (jget data "error")))
       else
         .ok (jget data "result"),
   req)

/-- Shape of one argument-validation test.  Every handler in `tools.js`
validates with a sequence of `if (<test fails>) throw new
McpError(ErrorCode.InvalidParams, msg)` statements; the constructors below
are exactly the test shapes occurring in the source. -/
inductive CheckKind where
  /-- `if (!arguments_?.f)` -/
  | truthy
  /-- `if (!arguments_?.f || typeof arguments_.f !== 'string')` -/
  | truthyString
  /-- `if (!arguments_?.f || typeof arguments_.f !== 'number')` -/
  | truthyNumber
  /-- `if (!arguments_?.f || !Array.isArray(arguments_.f))` -/
  | truthyArray
  /-- `if (!arguments_?.f || typeof arguments_.f !== 'object')` -/
  | truthyObject
  /-- `if (arguments_?.f === undefined || typeof arguments_.f !== 'number')` -/
  | definedNumber
  /-- `if (!arguments_?.ease || typeof ... !== 'number' || ease < 1 || ease > 4)`
  (only `guiAnswerCard`) -/
  | easeOneToFour
  /-- `if (arguments_.f.length !== arguments_.other.length)` (paired
  arrays; evaluated after both fields passed their array checks) -/
  | sameLength (other : String)
  /-- `for (const review of arguments_.reviews) if (!Array.isArray(review)
  || review.length !== 9) throw ...` (only `insertReviews`; evaluated after
  `reviews` passed its array check) -/
  | reviewTuples
  /-- `if (!arguments_.f.sub || typeof arguments_.f.sub !== 'string')` -/
  | nestedString (sub : String)
  /-- nested variant for `typeof ... !== 'number'` -/
  | nestedNumber (sub : String)
  /-- nested variant for `typeof ... !== 'object'` -/
  | nestedObject (sub : String)
deriving Repr, DecidableEq

/-- One validation statement of a handler: the argument field it guards,
the shape of its test, and the exact message of the `McpError` it throws. -/
structure Check where
  field : String
  kind : CheckKind
  msg : String
deriving Repr, DecidableEq

/-- Whether the ease value lies in the accepted range (the `ease < 1 ||
ease > 4` part of the `guiAnswerCard` check). -/
def easeInRange : Option Json → Bool
  | some (.num n) => 1 ≤ n && n ≤ 4
  | _ => false

/-- Equal-length test for paired arrays. -/
def sameLen : Option Json → Option Json → Bool
  | some (.arr a), some (.arr b) => a.length == b.length
  | _, _ => false

/-- Test that every review is an array of exactly 9 values. -/
def allTuples9 : Option Json → Bool
  | some (.arr xs) =>
      xs.all fun x => match x with
        | .arr ys => ys.length == 9
        | _ => false
  | _ => false

/-- Evaluation of one validation test against the caller's argument
object, transcribing the JavaScript condition of each shape. -/
def checkPasses (args : Json) (c : Check) : Bool :=
  let v := getField args c.field
  match c.kind with
  | .truthy => truthyOpt v
  | .truthyString => truthyOpt v && isStringOpt v
  | .truthyNumber => truthyOpt v && isNumberOpt v
  | .truthyArray => truthyOpt v && isArrayOpt v
  | .truthyObject => truthyOpt v && typeofObjectOpt v
  | .definedNumber => isNumberOpt v
  | .easeOneToFour => truthyOpt v && isNumberOpt v && easeInRange v
  | .sameLength other => sameLen v (getField args other)
  | .reviewTuples => allTuples9 v
  | .nestedString sub =>
      let n := v.bind (getField · sub)
      truthyOpt n && isStringOpt n
  | .nestedNumber sub =>
      let n := v.bind (getField · sub)
      truthyOpt n && isNumberOpt n
  | .nestedObject sub =>
      let n := v.bind (getField · sub)
      truthyOpt n && typeofObjectOpt n

/-- Run a handler's validation statements in source order: the first
failing test throws its `InvalidParams` error. -/
def runChecks (args : Json) : List Check → Option McpError
  | [] => none
  | c :: rest =>
      if checkPasses args c then runChecks args rest
      else some ⟨.InvalidParams, c.msg⟩

/-- How one field of the forwarded `params` object is produced from the
arguments.  The three constructors are the three copy idioms of the
source handlers. -/
inductive ParamSpec where
  /-- unconditional copy `params.f = arguments_.f` of a validated field -/
  | req (field : String)
  /-- `if (arguments_?.f) params.f = arguments_.f` -/
  | optTruthy (field : String)
  /-- `if (arguments_?.f !== undefined) params.f = arguments_.f` -/
  | optDefined (field : String)
deriving Repr, DecidableEq

/-- Construction of the `params` object forwarded to `invokeAnkiConnect`,
copying the listed fields in source order. -/
def buildParams (args : Json) : List ParamSpec → List (String × Json)
  | [] => []
  | .req f :: rest => (f, jget args f) :: buildParams args rest
  | .optTruthy f :: rest =>
      match getField args f with
      | some v =>
          if truthy v then (f, v) :: buildParams args rest
          else buildParams args rest
      | none => buildParams args rest
  | .optDefined f :: rest =>
      match getField args f with
      | some v => (f, v) :: buildParams args rest
      | none => buildParams args rest

/-- The per-handler convention producing the `text` value of the returned
content block from the remote result (and, for two handlers, from an
argument field). -/
inductive FmtSpec where
  /-- `JSON.stringify(result, null, 2)` -/
  | jsonPretty
  /-- `text: result` (raw pass-through: `getMediaDirPath`,
  `getCollectionStatsHTML`) -/
  | raw
  /-- `retrieveMediaFile`: `"File not found"` when the result is `false`,
  otherwise the raw result -/
  | rawOrNotFound
  /-- `` `prefix: ${result ? "S" : "F"}` `` stored as the two complete
  alternative strings -/
  | status (success failure : String)
  /-- `` `prefix ${result}` `` -/
  | interpolate (pre : String)
  /-- `` `pre${arguments_.f}mid${result ? "S" : "F"}` `` (`guiAnswerCard`,
  `guiDeckOverview`) -/
  | statusWithField (field : String) (pre mid success failure : String)
deriving Repr, DecidableEq

/-- Evaluation of a formatter against the arguments and the unwrapped
remote result. -/
def applyFmt (args result : Json) : FmtSpec → Json
  | .jsonPretty => .str (stringify result)
  | .raw => result
  | .rawOrNotFound =>
      match result with
      | .bool false => .str "File not found"
      | r => r
  | .status success failure =>
      .str (if truthy result then success else failure)
  | .interpolate pre => .str (pre ++ jsToString result)
  | .statusWithField f pre mid success failure =>
      .str (pre ++ jsToString (jget args f) ++ mid ++
        (if truthy result then success else failure))

/-- Static description of one handler function of `tools.js`: its
validation statements, the AnkiConnect action it invokes, the fields it
copies into `params`, and its text formatter.  Each `ToolImpl` value below
is transcribed from the corresponding `handleX` function. -/
structure ToolImpl where
  checks : List Check
  action : String
  params : List ParamSpec
  fmt : FmtSpec
deriving Repr, DecidableEq

/-- One content block of a tool result.  The `text` field holds a JSON
value because the raw pass-through handlers place the unconverted remote
result there. -/
structure ContentBlock where
  type : String
  text : Json

/-- Value returned by a handler to the protocol layer.  `isError` is
`none` when the source object literal carries no `isError` key. -/
structure ToolResult where
  content : List ContentBlock
  isError : Option Bool := none

/-- Shared skeleton of every handler function: run the validation
statements (throwing before any network activity), perform the single
`invokeAnkiConnect` exchange, and wrap the formatted text in one
`{type: "text"}` content block.  The second component lists the requests
issued during the call. -/
def runTool (impl : ToolImpl) (ep : Endpoint) (args : Json) :
    Except CallError ToolResult × List Request :=
  match runChecks args impl.checks with
  | some e => (.error (.mcp e), [])
  | none =>
      match invokeAnkiConnect ep impl.action (buildParams args impl.params) with
      | (.error e, req) => (.error (.invoke e), [req])
      | (.ok result, req) =>
          (.ok { content := [{ type := "text", text := applyFmt args result impl.fmt }] },
           [req])
/-!
Transcriptions of the 114 handler functions of `tools.js`.  Each record
lists, in source order, the validation statements of the handler (field, test
shape, thrown message), the AnkiConnect action string it invokes, the
fields it copies into the forwarded `params` object, and its result
formatter.
-/

/-- Transcription of `handleGetEaseFactors` (tool `getEaseFactors`). -/
def handleGetEaseFactors : ToolImpl where
  checks := [⟨"cards", .truthyArray, "Missing required parameter: cards (array of card IDs)"⟩]
  action := "getEaseFactors"
  params := [.req "cards"]
  fmt := .jsonPretty

/-- Transcription of `handleSetEaseFactors` (tool `setEaseFactors`). -/
def handleSetEaseFactors : ToolImpl where
  checks := [⟨"cards", .truthyArray, "Missing required parameter: cards (array of card IDs)"⟩,
     ⟨"easeFactors", .truthyArray, "Missing required parameter: easeFactors (array of ease factors)"⟩,
     ⟨"cards", (.sameLength "easeFactors"), "Cards and easeFactors arrays must have the same length"⟩]
  action := "setEaseFactors"
  params := [.req "cards", .req "easeFactors"]
  fmt := (.status "Set ease factors: Success" "Set ease factors: Failed")

/-- Transcription of `handleSetSpecificValueOfCard` (tool `setSpecificValueOfCard`). -/
def handleSetSpecificValueOfCard : ToolImpl where
  checks := [⟨"card", .truthyNumber, "Missing required parameter: card (card ID)"⟩,
     ⟨"keys", .truthyArray, "Missing required parameter: keys (array of property names)"⟩,
     ⟨"newValues", .truthyArray, "Missing required parameter: newValues (array of property values)"⟩,
     ⟨"keys", (.sameLength "newValues"), "Keys and newValues arrays must have the same length"⟩]
  action := "setSpecificValueOfCard"
  params := [.req "card", .req "keys", .req "newValues", .optDefined "warning_check"]
  fmt := (.status "Set specific values of card: Success" "Set specific values of card: Failed")

/-- Transcription of `handleSuspend` (tool `suspend`). -/
def handleSuspend : ToolImpl where
  checks := [⟨"cards", .truthyArray, "Missing required parameter: cards (array of card IDs)"⟩]
  action := "suspend"
  params := [.req "cards"]
  fmt := (.status "Suspend cards: Success" "Suspend cards: Failed (possibly already suspended)")

/-- Transcription of `handleUnsuspend` (tool `unsuspend`). -/
def handleUnsuspend : ToolImpl where
  checks := [⟨"cards", .truthyArray, "Missing required parameter: cards (array of card IDs)"⟩]
  action := "unsuspend"
  params := [.req "cards"]
  fmt := (.status "Unsuspend cards: Success" "Unsuspend cards: Failed (possibly not suspended)")

/-- Transcription of `handleSuspended` (tool `suspended`). -/
def handleSuspended : ToolImpl where
  checks := [⟨"card", .truthyNumber, "Missing required parameter: card (card ID)"⟩]
  action := "suspended"
  params := [.req "card"]
  fmt := (.interpolate "Card is suspended: ")

/-- Transcription of `handleAreSuspended` (tool `areSuspended`). -/
def handleAreSuspended : ToolImpl where
  checks := [⟨"cards", .truthyArray, "Missing required parameter: cards (array of card IDs)"⟩]
  action := "areSuspended"
  params := [.req "cards"]
  fmt := .jsonPretty

/-- Transcription of `handleAreDue` (tool `areDue`). -/
def handleAreDue : ToolImpl where
  checks := [⟨"cards", .truthyArray, "Missing required parameter: cards (array of card IDs)"⟩]
  action := "areDue"
  params := [.req "cards"]
  fmt := .jsonPretty

/-- Transcription of `handleGetIntervals` (tool `getIntervals`). -/
def handleGetIntervals : ToolImpl where
  checks := [⟨"cards", .truthyArray, "Missing required parameter: cards (array of card IDs)"⟩]
  action := "getIntervals"
  params := [.req "cards", .optDefined "complete"]
  fmt := .jsonPretty

/-- Transcription of `handleFindCards` (tool `findCards`). -/
def handleFindCards : ToolImpl where
  checks := [⟨"query", .truthyString, "Missing required parameter: query"⟩]
  action := "findCards"
  params := [.req "query"]
  fmt := .jsonPretty

/-- Transcription of `handleCardsToNotes` (tool `cardsToNotes`). -/
def handleCardsToNotes : ToolImpl where
  checks := [⟨"cards", .truthyArray, "Missing required parameter: cards (array of card IDs)"⟩]
  action := "cardsToNotes"
  params := [.req "cards"]
  fmt := .jsonPretty

/-- Transcription of `handleCardsModTime` (tool `cardsModTime`). -/
def handleCardsModTime : ToolImpl where
  checks := [⟨"cards", .truthyArray, "Missing required parameter: cards (array of card IDs)"⟩]
  action := "cardsModTime"
  params := [.req "cards"]
  fmt := .jsonPretty

/-- Transcription of `handleCardsInfo` (tool `cardsInfo`). -/
def handleCardsInfo : ToolImpl where
  checks := [⟨"cards", .truthyArray, "Missing required parameter: cards (array of card IDs)"⟩]
  action := "cardsInfo"
  params := [.req "cards"]
  fmt := .jsonPretty

/-- Transcription of `handleForgetCards` (tool `forgetCards`). -/
def handleForgetCards : ToolImpl where
  checks := [⟨"cards", .truthyArray, "Missing required parameter: cards (array of card IDs)"⟩]
  action := "forgetCards"
  params := [.req "cards"]
  fmt := (.status "Forget cards: Success" "Forget cards: Failed")

/-- Transcription of `handleRelearnCards` (tool `relearnCards`). -/
def handleRelearnCards : ToolImpl where
  checks := [⟨"cards", .truthyArray, "Missing required parameter: cards (array of card IDs)"⟩]
  action := "relearnCards"
  params := [.req "cards"]
  fmt := (.status "Relearn cards: Success" "Relearn cards: Failed")

/-- Transcription of `handleAnswerCards` (tool `answerCards`). -/
def handleAnswerCards : ToolImpl where
  checks := [⟨"answers", .truthyArray, "Missing required parameter: answers (array of card answers)"⟩]
  action := "answerCards"
  params := [.req "answers"]
  fmt := (.status "Answer cards: Success" "Answer cards: Failed")

/-- Transcription of `handleSetDueDate` (tool `setDueDate`). -/
def handleSetDueDate : ToolImpl where
  checks := [⟨"cards", .truthyArray, "Missing required parameter: cards (array of card IDs)"⟩,
     ⟨"days", .truthy, "Missing required parameter: days"⟩]
  action := "setDueDate"
  params := [.req "cards", .req "days"]
  fmt := (.status "Set due date: Success" "Set due date: Failed")

/-- Transcription of `handleGetDeckNames` (tool `getDeckNames`). -/
def handleGetDeckNames : ToolImpl where
  checks := []
  action := "deckNames"
  params := []
  fmt := .jsonPretty

/-- Transcription of `handleCreateDeck` (tool `createDeck`). -/
def handleCreateDeck : ToolImpl where
  checks := [⟨"deck", .truthy, "Missing required parameter: deck"⟩]
  action := "createDeck"
  params := [.req "deck"]
  fmt := (.interpolate "Deck created with ID: ")

/-- Transcription of `handleDeckNamesAndIds` (tool `deckNamesAndIds`). -/
def handleDeckNamesAndIds : ToolImpl where
  checks := []
  action := "deckNamesAndIds"
  params := []
  fmt := .jsonPretty

/-- Transcription of `handleGetDecks` (tool `getDecks`). -/
def handleGetDecks : ToolImpl where
  checks := [⟨"cards", .truthyArray, "Missing required parameter: cards (array of card IDs)"⟩]
  action := "getDecks"
  params := [.req "cards"]
  fmt := .jsonPretty

/-- Transcription of `handleChangeDeck` (tool `changeDeck`). -/
def handleChangeDeck : ToolImpl where
  checks := [⟨"cards", .truthyArray, "Missing required parameter: cards (array of card IDs)"⟩,
     ⟨"deck", .truthyString, "Missing required parameter: deck"⟩]
  action := "changeDeck"
  params := [.req "cards", .req "deck"]
  fmt := (.status "Change deck: Success" "Change deck: Failed")

/-- Transcription of `handleDeleteDecks` (tool `deleteDecks`). -/
def handleDeleteDecks : ToolImpl where
  checks := [⟨"decks", .truthyArray, "Missing required parameter: decks (array of deck names)"⟩]
  action := "deleteDecks"
  params := [.req "decks", .optDefined "cardsToo"]
  fmt := (.status "Delete decks: Success" "Delete decks: Failed")

/-- Transcription of `handleGetDeckConfig` (tool `getDeckConfig`). -/
def handleGetDeckConfig : ToolImpl where
  checks := [⟨"deck", .truthyString, "Missing required parameter: deck"⟩]
  action := "getDeckConfig"
  params := [.req "deck"]
  fmt := .jsonPretty

/-- Transcription of `handleSaveDeckConfig` (tool `saveDeckConfig`). -/
def handleSaveDeckConfig : ToolImpl where
  checks := [⟨"config", .truthyObject, "Missing required parameter: config"⟩]
  action := "saveDeckConfig"
  params := [.req "config"]
  fmt := (.status "Save deck config: Success" "Save deck config: Failed")

/-- Transcription of `handleSetDeckConfigId` (tool `setDeckConfigId`). -/
def handleSetDeckConfigId : ToolImpl where
  checks := [⟨"decks", .truthyArray, "Missing required parameter: decks (array of deck names)"⟩,
     ⟨"configId", .definedNumber, "Missing required parameter: configId"⟩]
  action := "setDeckConfigId"
  params := [.req "decks", .req "configId"]
  fmt := (.status "Set deck config ID: Success" "Set deck config ID: Failed")

/-- Transcription of `handleCloneDeckConfigId` (tool `cloneDeckConfigId`). -/
def handleCloneDeckConfigId : ToolImpl where
  checks := [⟨"name", .truthyString, "Missing required parameter: name"⟩,
     ⟨"cloneFrom", .truthyNumber, "Missing required parameter: cloneFrom"⟩]
  action := "cloneDeckConfigId"
  params := [.req "name", .req "cloneFrom"]
  fmt := (.interpolate "New configuration group ID: ")

/-- Transcription of `handleRemoveDeckConfigId` (tool `removeDeckConfigId`). -/
def handleRemoveDeckConfigId : ToolImpl where
  checks := [⟨"configId", .truthyNumber, "Missing required parameter: configId"⟩]
  action := "removeDeckConfigId"
  params := [.req "configId"]
  fmt := (.status "Remove deck config ID: Success" "Remove deck config ID: Failed")

/-- Transcription of `handleGetDeckStats` (tool `getDeckStats`). -/
def handleGetDeckStats : ToolImpl where
  checks := [⟨"decks", .truthyArray, "Missing required parameter: decks (array of deck names)"⟩]
  action := "getDeckStats"
  params := [.req "decks"]
  fmt := .jsonPretty

/-- Transcription of `handleModelNames` (tool `modelNames`). -/
def handleModelNames : ToolImpl where
  checks := []
  action := "modelNames"
  params := []
  fmt := .jsonPretty

/-- Transcription of `handleModelNamesAndIds` (tool `modelNamesAndIds`). -/
def handleModelNamesAndIds : ToolImpl where
  checks := []
  action := "modelNamesAndIds"
  params := []
  fmt := .jsonPretty

/-- Transcription of `handleFindModelsById` (tool `findModelsById`). -/
def handleFindModelsById : ToolImpl where
  checks := [⟨"modelIds", .truthyArray, "Missing required parameter: modelIds (array of model IDs)"⟩]
  action := "findModelsById"
  params := [.req "modelIds"]
  fmt := .jsonPretty

/-- Transcription of `handleFindModelsByName` (tool `findModelsByName`). -/
def handleFindModelsByName : ToolImpl where
  checks := [⟨"modelNames", .truthyArray, "Missing required parameter: modelNames (array of model names)"⟩]
  action := "findModelsByName"
  params := [.req "modelNames"]
  fmt := .jsonPretty

/-- Transcription of `handleModelFieldNames` (tool `modelFieldNames`). -/
def handleModelFieldNames : ToolImpl where
  checks := [⟨"modelName", .truthyString, "Missing required parameter: modelName"⟩]
  action := "modelFieldNames"
  params := [.req "modelName"]
  fmt := .jsonPretty

/-- Transcription of `handleModelFieldDescriptions` (tool `modelFieldDescriptions`). -/
def handleModelFieldDescriptions : ToolImpl where
  checks := [⟨"modelName", .truthyString, "Missing required parameter: modelName"⟩]
  action := "modelFieldDescriptions"
  params := [.req "modelName"]
  fmt := .jsonPretty

/-- Transcription of `handleModelFieldFonts` (tool `modelFieldFonts`). -/
def handleModelFieldFonts : ToolImpl where
  checks := [⟨"modelName", .truthyString, "Missing required parameter: modelName"⟩]
  action := "modelFieldFonts"
  params := [.req "modelName"]
  fmt := .jsonPretty

/-- Transcription of `handleModelFieldsOnTemplates` (tool `modelFieldsOnTemplates`). -/
def handleModelFieldsOnTemplates : ToolImpl where
  checks := [⟨"modelName", .truthyString, "Missing required parameter: modelName"⟩]
  action := "modelFieldsOnTemplates"
  params := [.req "modelName"]
  fmt := .jsonPretty

/-- Transcription of `handleModelTemplates` (tool `modelTemplates`). -/
def handleModelTemplates : ToolImpl where
  checks := [⟨"modelName", .truthyString, "Missing required parameter: modelName"⟩]
  action := "modelTemplates"
  params := [.req "modelName"]
  fmt := .jsonPretty

/-- Transcription of `handleModelStyling` (tool `modelStyling`). -/
def handleModelStyling : ToolImpl where
  checks := [⟨"modelName", .truthyString, "Missing required parameter: modelName"⟩]
  action := "modelStyling"
  params := [.req "modelName"]
  fmt := .jsonPretty

/-- Transcription of `handleUpdateModelTemplates` (tool `updateModelTemplates`). -/
def handleUpdateModelTemplates : ToolImpl where
  checks := [⟨"model", .truthyObject, "Missing required parameter: model"⟩,
     ⟨"model", (.nestedString "name"), "Missing required parameter: model.name"⟩,
     ⟨"model", (.nestedObject "templates"), "Missing required parameter: model.templates"⟩]
  action := "updateModelTemplates"
  params := [.req "model"]
  fmt := (.status "Update model templates: Success" "Update model templates: Failed")

/-- Transcription of `handleUpdateModelStyling` (tool `updateModelStyling`). -/
def handleUpdateModelStyling : ToolImpl where
  checks := [⟨"model", .truthyObject, "Missing required parameter: model"⟩,
     ⟨"model", (.nestedString "name"), "Missing required parameter: model.name"⟩,
     ⟨"model", (.nestedString "css"), "Missing required parameter: model.css"⟩]
  action := "updateModelStyling"
  params := [.req "model"]
  fmt := (.status "Update model styling: Success" "Update model styling: Failed")

/-- Transcription of `handleFindAndReplaceInModels` (tool `findAndReplaceInModels`). -/
def handleFindAndReplaceInModels : ToolImpl where
  checks := [⟨"model", .truthyObject, "Missing required parameter: model"⟩,
     ⟨"model", (.nestedString "modelName"), "Missing required parameter: model.modelName"⟩,
     ⟨"model", (.nestedString "findText"), "Missing required parameter: model.findText"⟩,
     ⟨"model", (.nestedString "replaceText"), "Missing required parameter: model.replaceText"⟩]
  action := "findAndReplaceInModels"
  params := [.req "model"]
  fmt := (.status "Find and replace in models: Success" "Find and replace in models: Failed")

/-- Transcription of `handleModelTemplateRename` (tool `modelTemplateRename`). -/
def handleModelTemplateRename : ToolImpl where
  checks := [⟨"modelName", .truthyString, "Missing required parameter: modelName"⟩,
     ⟨"oldTemplateName", .truthyString, "Missing required parameter: oldTemplateName"⟩,
     ⟨"newTemplateName", .truthyString, "Missing required parameter: newTemplateName"⟩]
  action := "modelTemplateRename"
  params := [.req "modelName", .req "oldTemplateName", .req "newTemplateName"]
  fmt := (.status "Rename model template: Success" "Rename model template: Failed")

/-- Transcription of `handleModelTemplateReposition` (tool `modelTemplateReposition`). -/
def handleModelTemplateReposition : ToolImpl where
  checks := [⟨"modelName", .truthyString, "Missing required parameter: modelName"⟩,
     ⟨"templateName", .truthyString, "Missing required parameter: templateName"⟩,
     ⟨"index", .definedNumber, "Missing required parameter: index"⟩]
  action := "modelTemplateReposition"
  params := [.req "modelName", .req "templateName", .req "index"]
  fmt := (.status "Reposition model template: Success" "Reposition model template: Failed")

/-- Transcription of `handleModelTemplateAdd` (tool `modelTemplateAdd`). -/
def handleModelTemplateAdd : ToolImpl where
  checks := [⟨"modelName", .truthyString, "Missing required parameter: modelName"⟩,
     ⟨"template", .truthyObject, "Missing required parameter: template"⟩]
  action := "modelTemplateAdd"
  params := [.req "modelName", .req "template"]
  fmt := (.status "Add model template: Success" "Add model template: Failed")

/-- Transcription of `handleModelTemplateRemove` (tool `modelTemplateRemove`). -/
def handleModelTemplateRemove : ToolImpl where
  checks := [⟨"modelName", .truthyString, "Missing required parameter: modelName"⟩,
     ⟨"templateName", .truthyString, "Missing required parameter: templateName"⟩]
  action := "modelTemplateRemove"
  params := [.req "modelName", .req "templateName"]
  fmt := (.status "Remove model template: Success" "Remove model template: Failed")

/-- Transcription of `handleModelFieldRename` (tool `modelFieldRename`). -/
def handleModelFieldRename : ToolImpl where
  checks := [⟨"modelName", .truthyString, "Missing required parameter: modelName"⟩,
     ⟨"oldFieldName", .truthyString, "Missing required parameter: oldFieldName"⟩,
     ⟨"newFieldName", .truthyString, "Missing required parameter: newFieldName"⟩]
  action := "modelFieldRename"
  params := [.req "modelName", .req "oldFieldName", .req "newFieldName"]
  fmt := (.status "Rename model field: Success" "Rename model field: Failed")

/-- Transcription of `handleModelFieldReposition` (tool `modelFieldReposition`). -/
def handleModelFieldReposition : ToolImpl where
  checks := [⟨"modelName", .truthyString, "Missing required parameter: modelName"⟩,
     ⟨"fieldName", .truthyString, "Missing required parameter: fieldName"⟩,
     ⟨"index", .definedNumber, "Missing required parameter: index"⟩]
  action := "modelFieldReposition"
  params := [.req "modelName", .req "fieldName", .req "index"]
  fmt := (.status "Reposition model field: Success" "Reposition model field: Failed")

/-- Transcription of `handleModelFieldAdd` (tool `modelFieldAdd`). -/
def handleModelFieldAdd : ToolImpl where
  checks := [⟨"modelName", .truthyString, "Missing required parameter: modelName"⟩,
     ⟨"fieldName", .truthyString, "Missing required parameter: fieldName"⟩]
  action := "modelFieldAdd"
  params := [.req "modelName", .req "fieldName", .optDefined "index"]
  fmt := (.status "Add model field: Success" "Add model field: Failed")

/-- Transcription of `handleModelFieldRemove` (tool `modelFieldRemove`). -/
def handleModelFieldRemove : ToolImpl where
  checks := [⟨"modelName", .truthyString, "Missing required parameter: modelName"⟩,
     ⟨"fieldName", .truthyString, "Missing required parameter: fieldName"⟩]
  action := "modelFieldRemove"
  params := [.req "modelName", .req "fieldName"]
  fmt := (.status "Remove model field: Success" "Remove model field: Failed")

/-- Transcription of `handleModelFieldSetFont` (tool `modelFieldSetFont`). -/
def handleModelFieldSetFont : ToolImpl where
  checks := [⟨"modelName", .truthyString, "Missing required parameter: modelName"⟩,
     ⟨"fieldName", .truthyString, "Missing required parameter: fieldName"⟩,
     ⟨"font", .truthyString, "Missing required parameter: font"⟩]
  action := "modelFieldSetFont"
  params := [.req "modelName", .req "fieldName", .req "font"]
  fmt := (.status "Set model field font: Success" "Set model field font: Failed")

/-- Transcription of `handleModelFieldSetFontSize` (tool `modelFieldSetFontSize`). -/
def handleModelFieldSetFontSize : ToolImpl where
  checks := [⟨"modelName", .truthyString, "Missing required parameter: modelName"⟩,
     ⟨"fieldName", .truthyString, "Missing required parameter: fieldName"⟩,
     ⟨"fontSize", .definedNumber, "Missing required parameter: fontSize"⟩]
  action := "modelFieldSetFontSize"
  params := [.req "modelName", .req "fieldName", .req "fontSize"]
  fmt := (.status "Set model field font size: Success" "Set model field font size: Failed")

/-- Transcription of `handleModelFieldSetDescription` (tool `modelFieldSetDescription`). -/
def handleModelFieldSetDescription : ToolImpl where
  checks := [⟨"modelName", .truthyString, "Missing required parameter: modelName"⟩,
     ⟨"fieldName", .truthyString, "Missing required parameter: fieldName"⟩,
     ⟨"description", .truthyString, "Missing required parameter: description"⟩]
  action := "modelFieldSetDescription"
  params := [.req "modelName", .req "fieldName", .req "description"]
  fmt := (.status "Set model field description: Success" "Set model field description: Failed")

/-- Transcription of `handleCreateModel` (tool `createModel`). -/
def handleCreateModel : ToolImpl where
  checks := [⟨"modelName", .truthyString, "Missing required parameter: modelName"⟩,
     ⟨"inOrderFields", .truthyArray, "Missing required parameter: inOrderFields (array of field names)"⟩,
     ⟨"cardTemplates", .truthyArray, "Missing required parameter: cardTemplates (array of templates)"⟩]
  action := "createModel"
  params := [.req "modelName", .req "inOrderFields", .req "cardTemplates", .optTruthy "css", .optDefined "isCloze"]
  fmt := (.status "Create model: Success" "Create model: Failed")

/-- Transcription of `handleAddNote` (tool `addNote`). -/
def handleAddNote : ToolImpl where
  checks := [⟨"note", .truthyObject, "Missing required parameter: note"⟩,
     ⟨"note", (.nestedString "deckName"), "Missing required parameter: note.deckName"⟩,
     ⟨"note", (.nestedString "modelName"), "Missing required parameter: note.modelName"⟩,
     ⟨"note", (.nestedObject "fields"), "Missing required parameter: note.fields"⟩]
  action := "addNote"
  params := [.req "note"]
  fmt := (.interpolate "Note created with ID: ")

/-- Transcription of `handleAddNotes` (tool `addNotes`). -/
def handleAddNotes : ToolImpl where
  checks := [⟨"notes", .truthyArray, "Missing required parameter: notes (array of notes)"⟩]
  action := "addNotes"
  params := [.req "notes"]
  fmt := .jsonPretty

/-- Transcription of `handleCanAddNotes` (tool `canAddNotes`). -/
def handleCanAddNotes : ToolImpl where
  checks := [⟨"notes", .truthyArray, "Missing required parameter: notes (array of note data)"⟩]
  action := "canAddNotes"
  params := [.req "notes"]
  fmt := .jsonPretty

/-- Transcription of `handleCanAddNotesWithErrorDetail` (tool `canAddNotesWithErrorDetail`). -/
def handleCanAddNotesWithErrorDetail : ToolImpl where
  checks := [⟨"notes", .truthyArray, "Missing required parameter: notes (array of note data)"⟩]
  action := "canAddNotesWithErrorDetail"
  params := [.req "notes"]
  fmt := .jsonPretty

/-- Transcription of `handleFindNotes` (tool `findNotes`). -/
def handleFindNotes : ToolImpl where
  checks := [⟨"query", .truthyString, "Missing required parameter: query"⟩]
  action := "findNotes"
  params := [.req "query"]
  fmt := .jsonPretty

/-- Transcription of `handleNotesInfo` (tool `notesInfo`). -/
def handleNotesInfo : ToolImpl where
  checks := [⟨"notes", .truthyArray, "Missing required parameter: notes (array of note IDs)"⟩]
  action := "notesInfo"
  params := [.req "notes"]
  fmt := .jsonPretty

/-- Transcription of `handleNotesModTime` (tool `notesModTime`). -/
def handleNotesModTime : ToolImpl where
  checks := [⟨"notes", .truthyArray, "Missing required parameter: notes (array of note IDs)"⟩]
  action := "notesModTime"
  params := [.req "notes"]
  fmt := .jsonPretty

/-- Transcription of `handleUpdateNoteFields` (tool `updateNoteFields`). -/
def handleUpdateNoteFields : ToolImpl where
  checks := [⟨"note", .truthyObject, "Missing required parameter: note"⟩,
     ⟨"note", (.nestedNumber "id"), "Missing required parameter: note.id"⟩,
     ⟨"note", (.nestedObject "fields"), "Missing required parameter: note.fields"⟩]
  action := "updateNoteFields"
  params := [.req "note"]
  fmt := (.status "Update note fields: Success" "Update note fields: Failed")

/-- Transcription of `handleUpdateNote` (tool `updateNote`). -/
def handleUpdateNote : ToolImpl where
  checks := [⟨"note", .truthyObject, "Missing required parameter: note"⟩,
     ⟨"note", (.nestedNumber "id"), "Missing required parameter: note.id"⟩]
  action := "updateNote"
  params := [.req "note"]
  fmt := (.status "Update note: Success" "Update note: Failed")

/-- Transcription of `handleUpdateNoteModel` (tool `updateNoteModel`). -/
def handleUpdateNoteModel : ToolImpl where
  checks := [⟨"note", .truthyObject, "Missing required parameter: note"⟩,
     ⟨"note", (.nestedNumber "id"), "Missing required parameter: note.id"⟩,
     ⟨"note", (.nestedString "modelName"), "Missing required parameter: note.modelName"⟩,
     ⟨"note", (.nestedObject "fields"), "Missing required parameter: note.fields"⟩]
  action := "updateNoteModel"
  params := [.req "note"]
  fmt := (.status "Update note model: Success" "Update note model: Failed")

/-- Transcription of `handleDeleteNotes` (tool `deleteNotes`). -/
def handleDeleteNotes : ToolImpl where
  checks := [⟨"notes", .truthyArray, "Missing required parameter: notes (array of note IDs)"⟩]
  action := "deleteNotes"
  params := [.req "notes"]
  fmt := (.status "Delete notes: Success" "Delete notes: Failed")

/-- Transcription of `handleRemoveEmptyNotes` (tool `removeEmptyNotes`). -/
def handleRemoveEmptyNotes : ToolImpl where
  checks := []
  action := "removeEmptyNotes"
  params := []
  fmt := (.status "Remove empty notes: Success" "Remove empty notes: Failed")

/-- Transcription of `handleGetTags` (tool `getTags`). -/
def handleGetTags : ToolImpl where
  checks := []
  action := "getTags"
  params := []
  fmt := .jsonPretty

/-- Transcription of `handleUpdateNoteTags` (tool `updateNoteTags`). -/
def handleUpdateNoteTags : ToolImpl where
  checks := [⟨"note", .truthyNumber, "Missing required parameter: note (note ID)"⟩,
     ⟨"tags", .truthyArray, "Missing required parameter: tags (array of tags)"⟩]
  action := "updateNoteTags"
  params := [.req "note", .req "tags"]
  fmt := (.status "Update note tags: Success" "Update note tags: Failed")

/-- Transcription of `handleGetNoteTags` (tool `getNoteTags`). -/
def handleGetNoteTags : ToolImpl where
  checks := [⟨"note", .truthyNumber, "Missing required parameter: note (note ID)"⟩]
  action := "getNoteTags"
  params := [.req "note"]
  fmt := .jsonPretty

/-- Transcription of `handleAddTags` (tool `addTags`). -/
def handleAddTags : ToolImpl where
  checks := [⟨"notes", .truthyArray, "Missing required parameter: notes (array of note IDs)"⟩,
     ⟨"tags", .truthyString, "Missing required parameter: tags (space-separated list of tags)"⟩]
  action := "addTags"
  params := [.req "notes", .req "tags"]
  fmt := (.status "Add tags: Success" "Add tags: Failed")

/-- Transcription of `handleRemoveTags` (tool `removeTags`). -/
def handleRemoveTags : ToolImpl where
  checks := [⟨"notes", .truthyArray, "Missing required parameter: notes (array of note IDs)"⟩,
     ⟨"tags", .truthyString, "Missing required parameter: tags (space-separated list of tags)"⟩]
  action := "removeTags"
  params := [.req "notes", .req "tags"]
  fmt := (.status "Remove tags: Success" "Remove tags: Failed")

/-- Transcription of `handleClearUnusedTags` (tool `clearUnusedTags`). -/
def handleClearUnusedTags : ToolImpl where
  checks := []
  action := "clearUnusedTags"
  params := []
  fmt := (.status "Clear unused tags: Success" "Clear unused tags: Failed")

/-- Transcription of `handleReplaceTags` (tool `replaceTags`). -/
def handleReplaceTags : ToolImpl where
  checks := [⟨"notes", .truthyArray, "Missing required parameter: notes (array of note IDs)"⟩,
     ⟨"tag_to_replace", .truthyString, "Missing required parameter: tag_to_replace"⟩,
     ⟨"replace_with_tag", .truthyString, "Missing required parameter: replace_with_tag"⟩]
  action := "replaceTags"
  params := [.req "notes", .req "tag_to_replace", .req "replace_with_tag"]
  fmt := (.status "Replace tags: Success" "Replace tags: Failed")

/-- Transcription of `handleReplaceTagsInAllNotes` (tool `replaceTagsInAllNotes`). -/
def handleReplaceTagsInAllNotes : ToolImpl where
  checks := [⟨"tag_to_replace", .truthyString, "Missing required parameter: tag_to_replace"⟩,
     ⟨"replace_with_tag", .truthyString, "Missing required parameter: replace_with_tag"⟩]
  action := "replaceTagsInAllNotes"
  params := [.req "tag_to_replace", .req "replace_with_tag"]
  fmt := (.status "Replace tags in all notes: Success" "Replace tags in all notes: Failed")

/-- Transcription of `handleStoreMediaFile` (tool `storeMediaFile`). -/
def handleStoreMediaFile : ToolImpl where
  checks := [⟨"filename", .truthyString, "Missing required parameter: filename"⟩,
     ⟨"data", .truthyString, "Missing required parameter: data (base64-encoded file content)"⟩]
  action := "storeMediaFile"
  params := [.req "filename", .req "data"]
  fmt := (.status "Store media file: Success" "Store media file: Failed")

/-- Transcription of `handleRetrieveMediaFile` (tool `retrieveMediaFile`). -/
def handleRetrieveMediaFile : ToolImpl where
  checks := [⟨"filename", .truthyString, "Missing required parameter: filename"⟩]
  action := "retrieveMediaFile"
  params := [.req "filename"]
  fmt := .rawOrNotFound

/-- Transcription of `handleGetMediaFilesNames` (tool `getMediaFilesNames`). -/
def handleGetMediaFilesNames : ToolImpl where
  checks := []
  action := "getMediaFilesNames"
  params := [.optTruthy "pattern"]
  fmt := .jsonPretty

/-- Transcription of `handleGetMediaDirPath` (tool `getMediaDirPath`). -/
def handleGetMediaDirPath : ToolImpl where
  checks := []
  action := "getMediaDirPath"
  params := []
  fmt := .raw

/-- Transcription of `handleDeleteMediaFile` (tool `deleteMediaFile`). -/
def handleDeleteMediaFile : ToolImpl where
  checks := [⟨"filename", .truthyString, "Missing required parameter: filename"⟩]
  action := "deleteMediaFile"
  params := [.req "filename"]
  fmt := (.status "Delete media file: Success" "Delete media file: Failed")

/-- Transcription of `handleGuiBrowse` (tool `guiBrowse`). -/
def handleGuiBrowse : ToolImpl where
  checks := [⟨"query", .truthyString, "Missing required parameter: query"⟩]
  action := "guiBrowse"
  params := [.req "query", .optTruthy "reorderCards"]
  fmt := .jsonPretty

/-- Transcription of `handleGuiSelectCard` (tool `guiSelectCard`). -/
def handleGuiSelectCard : ToolImpl where
  checks := [⟨"card", .truthyNumber, "Missing required parameter: card (card ID)"⟩]
  action := "guiSelectCard"
  params := [.req "card"]
  fmt := (.status "Select card in browser: Success" "Select card in browser: Failed")

/-- Transcription of `handleGuiSelectedNotes` (tool `guiSelectedNotes`). -/
def handleGuiSelectedNotes : ToolImpl where
  checks := []
  action := "guiSelectedNotes"
  params := []
  fmt := .jsonPretty

/-- Transcription of `handleGuiAddCards` (tool `guiAddCards`). -/
def handleGuiAddCards : ToolImpl where
  checks := [⟨"note", .truthyObject, "Missing required parameter: note"⟩,
     ⟨"note", (.nestedString "deckName"), "Missing required parameter: note.deckName"⟩,
     ⟨"note", (.nestedString "modelName"), "Missing required parameter: note.modelName"⟩,
     ⟨"note", (.nestedObject "fields"), "Missing required parameter: note.fields"⟩]
  action := "guiAddCards"
  params := [.req "note"]
  fmt := .jsonPretty

/-- Transcription of `handleGuiEditNote` (tool `guiEditNote`). -/
def handleGuiEditNote : ToolImpl where
  checks := [⟨"note", .truthyNumber, "Missing required parameter: note (note ID)"⟩]
  action := "guiEditNote"
  params := [.req "note"]
  fmt := (.status "Edit note: Success" "Edit note: Failed")

/-- Transcription of `handleGuiCurrentCard` (tool `guiCurrentCard`). -/
def handleGuiCurrentCard : ToolImpl where
  checks := []
  action := "guiCurrentCard"
  params := []
  fmt := .jsonPretty

/-- Transcription of `handleGuiStartCardTimer` (tool `guiStartCardTimer`). -/
def handleGuiStartCardTimer : ToolImpl where
  checks := []
  action := "guiStartCardTimer"
  params := []
  fmt := (.status "Start card timer: Success" "Start card timer: Failed")

/-- Transcription of `handleGuiShowQuestion` (tool `guiShowQuestion`). -/
def handleGuiShowQuestion : ToolImpl where
  checks := []
  action := "guiShowQuestion"
  params := []
  fmt := (.status "Show question: Success" "Show question: Failed (not in review mode)")

/-- Transcription of `handleGuiShowAnswer` (tool `guiShowAnswer`). -/
def handleGuiShowAnswer : ToolImpl where
  checks := []
  action := "guiShowAnswer"
  params := []
  fmt := (.status "Show answer: Success" "Show answer: Failed (not in review mode)")

/-- Transcription of `handleGuiAnswerCard` (tool `guiAnswerCard`). -/
def handleGuiAnswerCard : ToolImpl where
  checks := [⟨"ease", .easeOneToFour, "Missing or invalid required parameter: ease (1-4)"⟩]
  action := "guiAnswerCard"
  params := [.req "ease"]
  fmt := (.statusWithField "ease" "Answer card with ease " ": " "Success" "Failed")

/-- Transcription of `handleGuiUndo` (tool `guiUndo`). -/
def handleGuiUndo : ToolImpl where
  checks := []
  action := "guiUndo"
  params := []
  fmt := (.status "Undo: Success" "Undo: Failed")

/-- Transcription of `handleGuiDeckBrowser` (tool `guiDeckBrowser`). -/
def handleGuiDeckBrowser : ToolImpl where
  checks := []
  action := "guiDeckBrowser"
  params := []
  fmt := (.status "Open deck browser: Success" "Open deck browser: Failed")

/-- Transcription of `handleGuiDeckOverview` (tool `guiDeckOverview`). -/
def handleGuiDeckOverview : ToolImpl where
  checks := [⟨"name", .truthyString, "Missing required parameter: name (deck name)"⟩]
  action := "guiDeckOverview"
  params := [.req "name"]
  fmt := (.statusWithField "name" "Open deck overview for \x27" "\x27: " "Success" "Failed")

/-- Transcription of `handleGuiDeckReview` (tool `guiDeckReview`). -/
def handleGuiDeckReview : ToolImpl where
  checks := [⟨"name", .truthyString, "Missing required parameter: name (deck name)"⟩]
  action := "guiDeckReview"
  params := [.req "name"]
  fmt := (.status "Start deck review: Success" "Start deck review: Failed")

/-- Transcription of `handleGuiImportFile` (tool `guiImportFile`). -/
def handleGuiImportFile : ToolImpl where
  checks := []
  action := "guiImportFile"
  params := [.optTruthy "path"]
  fmt := (.status "Import file: Success" "Import file: Failed")

/-- Transcription of `handleGuiExitAnki` (tool `guiExitAnki`). -/
def handleGuiExitAnki : ToolImpl where
  checks := []
  action := "guiExitAnki"
  params := []
  fmt := (.status "Exit Anki: Success" "Exit Anki: Failed")

/-- Transcription of `handleGuiCheckDatabase` (tool `guiCheckDatabase`). -/
def handleGuiCheckDatabase : ToolImpl where
  checks := []
  action := "guiCheckDatabase"
  params := []
  fmt := (.status "Check database: Success" "Check database: Failed")

/-- Transcription of `handleGetNumCardsReviewedToday` (tool `getNumCardsReviewedToday`). -/
def handleGetNumCardsReviewedToday : ToolImpl where
  checks := []
  action := "getNumCardsReviewedToday"
  params := []
  fmt := (.interpolate "Cards reviewed today: ")

/-- Transcription of `handleGetNumCardsReviewedByDay` (tool `getNumCardsReviewedByDay`). -/
def handleGetNumCardsReviewedByDay : ToolImpl where
  checks := []
  action := "getNumCardsReviewedByDay"
  params := []
  fmt := .jsonPretty

/-- Transcription of `handleGetCollectionStatsHTML` (tool `getCollectionStatsHTML`). -/
def handleGetCollectionStatsHTML : ToolImpl where
  checks := []
  action := "getCollectionStatsHTML"
  params := [.optDefined "wholeCollection"]
  fmt := .raw

/-- Transcription of `handleCardReviews` (tool `cardReviews`). -/
def handleCardReviews : ToolImpl where
  checks := [⟨"deck", .truthyString, "Missing required parameter: deck"⟩,
     ⟨"startID", .truthyNumber, "Missing required parameter: startID (unix timestamp in milliseconds)"⟩]
  action := "cardReviews"
  params := [.req "deck", .req "startID"]
  fmt := .jsonPretty

/-- Transcription of `handleGetReviewsOfCards` (tool `getReviewsOfCards`). -/
def handleGetReviewsOfCards : ToolImpl where
  checks := [⟨"cards", .truthyArray, "Missing required parameter: cards (array of card IDs)"⟩]
  action := "getReviewsOfCards"
  params := [.req "cards"]
  fmt := .jsonPretty

/-- Transcription of `handleGetLatestReviewID` (tool `getLatestReviewID`). -/
def handleGetLatestReviewID : ToolImpl where
  checks := [⟨"deck", .truthyString, "Missing required parameter: deck"⟩]
  action := "getLatestReviewID"
  params := [.req "deck"]
  fmt := (.interpolate "Latest review ID: ")

/-- Transcription of `handleInsertReviews` (tool `insertReviews`). -/
def handleInsertReviews : ToolImpl where
  checks := [⟨"reviews", .truthyArray, "Missing required parameter: reviews (array of review tuples)"⟩,
     ⟨"reviews", .reviewTuples, "Each review must be a tuple with 9 values"⟩]
  action := "insertReviews"
  params := [.req "reviews"]
  fmt := (.status "Insert reviews: Success" "Insert reviews: Failed")

/-- Transcription of `handleRequestPermission` (tool `requestPermission`). -/
def handleRequestPermission : ToolImpl where
  checks := []
  action := "requestPermission"
  params := []
  fmt := (.status "Request permission: Granted" "Request permission: Denied")

/-- Transcription of `handleVersion` (tool `version`). -/
def handleVersion : ToolImpl where
  checks := []
  action := "version"
  params := []
  fmt := (.interpolate "AnkiConnect API version: ")

/-- Transcription of `handleApiReflect` (tool `apiReflect`). -/
def handleApiReflect : ToolImpl where
  checks := []
  action := "apiReflect"
  params := [.optTruthy "scopes", .optTruthy "actions"]
  fmt := .jsonPretty

/-- Transcription of `handleSync` (tool `sync`). -/
def handleSync : ToolImpl where
  checks := []
  action := "sync"
  params := []
  fmt := (.status "Sync: Success" "Sync: Failed")

/-- Transcription of `handleGetProfiles` (tool `getProfiles`). -/
def handleGetProfiles : ToolImpl where
  checks := []
  action := "getProfiles"
  params := []
  fmt := .jsonPretty

/-- Transcription of `handleGetActiveProfile` (tool `getActiveProfile`). -/
def handleGetActiveProfile : ToolImpl where
  checks := []
  action := "getActiveProfile"
  params := []
  fmt := (.interpolate "Active profile: ")

/-- Transcription of `handleLoadProfile` (tool `loadProfile`). -/
def handleLoadProfile : ToolImpl where
  checks := [⟨"name", .truthyString, "Missing required parameter: name (profile name)"⟩]
  action := "loadProfile"
  params := [.req "name"]
  fmt := (.status "Load profile: Success" "Load profile: Failed")

/-- Transcription of `handleMulti` (tool `multi`). -/
def handleMulti : ToolImpl where
  checks := [⟨"actions", .truthyArray, "Missing required parameter: actions (array of actions)"⟩]
  action := "multi"
  params := [.req "actions"]
  fmt := .jsonPretty

/-- Transcription of `handleExportPackage` (tool `exportPackage`). -/
def handleExportPackage : ToolImpl where
  checks := [⟨"deck", .truthyString, "Missing required parameter: deck"⟩,
     ⟨"path", .truthyString, "Missing required parameter: path"⟩]
  action := "exportPackage"
  params := [.req "deck", .req "path", .optDefined "includeSched"]
  fmt := (.status "Export package: Success" "Export package: Failed")

/-- Transcription of `handleImportPackage` (tool `importPackage`). -/
def handleImportPackage : ToolImpl where
  checks := [⟨"path", .truthyString, "Missing required parameter: path"⟩]
  action := "importPackage"
  params := [.req "path"]
  fmt := (.status "Import package: Success" "Import package: Failed")

/-- Transcription of `handleReloadCollection` (tool `reloadCollection`). -/
def handleReloadCollection : ToolImpl where
  checks := []
  action := "reloadCollection"
  params := []
  fmt := (.status "Reload collection: Success" "Reload collection: Failed")

/-- The dispatch table of `handleToolCall` (`tools.js` lines 5084-5335):
the `case` labels of the `switch` in the source, in source order, each paired
with its handler. -/
def toolRegistry : List (String × ToolImpl) := [
  ("getEaseFactors", handleGetEaseFactors),
  ("setEaseFactors", handleSetEaseFactors),
  ("setSpecificValueOfCard", handleSetSpecificValueOfCard),
  ("suspend", handleSuspend),
  ("unsuspend", handleUnsuspend),
  ("suspended", handleSuspended),
  ("areSuspended", handleAreSuspended),
  ("areDue", handleAreDue),
  ("getIntervals", handleGetIntervals),
  ("findCards", handleFindCards),
  ("cardsToNotes", handleCardsToNotes),
  ("cardsModTime", handleCardsModTime),
  ("cardsInfo", handleCardsInfo),
  ("forgetCards", handleForgetCards),
  ("relearnCards", handleRelearnCards),
  ("answerCards", handleAnswerCards),
  ("setDueDate", handleSetDueDate),
  ("getDeckNames", handleGetDeckNames),
  ("createDeck", handleCreateDeck),
  ("deckNamesAndIds", handleDeckNamesAndIds),
  ("getDecks", handleGetDecks),
  ("changeDeck", handleChangeDeck),
  ("deleteDecks", handleDeleteDecks),
  ("getDeckConfig", handleGetDeckConfig),
  ("saveDeckConfig", handleSaveDeckConfig),
  ("setDeckConfigId", handleSetDeckConfigId),
  ("cloneDeckConfigId", handleCloneDeckConfigId),
  ("removeDeckConfigId", handleRemoveDeckConfigId),
  ("getDeckStats", handleGetDeckStats),
  ("modelNames", handleModelNames),
  ("modelNamesAndIds", handleModelNamesAndIds),
  ("findModelsById", handleFindModelsById),
  ("findModelsByName", handleFindModelsByName),
  ("modelFieldNames", handleModelFieldNames),
  ("modelFieldDescriptions", handleModelFieldDescriptions),
  ("modelFieldFonts", handleModelFieldFonts),
  ("modelFieldsOnTemplates", handleModelFieldsOnTemplates),
  ("modelTemplates", handleModelTemplates),
  ("modelStyling", handleModelStyling),
  ("updateModelTemplates", handleUpdateModelTemplates),
  ("updateModelStyling", handleUpdateModelStyling),
  ("findAndReplaceInModels", handleFindAndReplaceInModels),
  ("modelTemplateRename", handleModelTemplateRename),
  ("modelTemplateReposition", handleModelTemplateReposition),
  ("modelTemplateAdd", handleModelTemplateAdd),
  ("modelTemplateRemove", handleModelTemplateRemove),
  ("modelFieldRename", handleModelFieldRename),
  ("modelFieldReposition", handleModelFieldReposition),
  ("modelFieldAdd", handleModelFieldAdd),
  ("modelFieldRemove", handleModelFieldRemove),
  ("modelFieldSetFont", handleModelFieldSetFont),
  ("modelFieldSetFontSize", handleModelFieldSetFontSize),
  ("modelFieldSetDescription", handleModelFieldSetDescription),
  ("createModel", handleCreateModel),
  ("addNote", handleAddNote),
  ("addNotes", handleAddNotes),
  ("canAddNotes", handleCanAddNotes),
  ("canAddNotesWithErrorDetail", handleCanAddNotesWithErrorDetail),
  ("findNotes", handleFindNotes),
  ("notesInfo", handleNotesInfo),
  ("notesModTime", handleNotesModTime),
  ("updateNoteFields", handleUpdateNoteFields),
  ("updateNote", handleUpdateNote),
  ("updateNoteModel", handleUpdateNoteModel),
  ("deleteNotes", handleDeleteNotes),
  ("removeEmptyNotes", handleRemoveEmptyNotes),
  ("getTags", handleGetTags),
  ("updateNoteTags", handleUpdateNoteTags),
  ("getNoteTags", handleGetNoteTags),
  ("addTags", handleAddTags),
  ("removeTags", handleRemoveTags),
  ("clearUnusedTags", handleClearUnusedTags),
  ("replaceTags", handleReplaceTags),
  ("replaceTagsInAllNotes", handleReplaceTagsInAllNotes),
  ("storeMediaFile", handleStoreMediaFile),
  ("retrieveMediaFile", handleRetrieveMediaFile),
  ("getMediaFilesNames", handleGetMediaFilesNames),
  ("getMediaDirPath", handleGetMediaDirPath),
  ("deleteMediaFile", handleDeleteMediaFile),
  ("guiBrowse", handleGuiBrowse),
  ("guiSelectCard", handleGuiSelectCard),
  ("guiSelectedNotes", handleGuiSelectedNotes),
  ("guiAddCards", handleGuiAddCards),
  ("guiEditNote", handleGuiEditNote),
  ("guiCurrentCard", handleGuiCurrentCard),
  ("guiStartCardTimer", handleGuiStartCardTimer),
  ("guiShowQuestion", handleGuiShowQuestion),
  ("guiShowAnswer", handleGuiShowAnswer),
  ("guiAnswerCard", handleGuiAnswerCard),
  ("guiUndo", handleGuiUndo),
  ("guiDeckBrowser", handleGuiDeckBrowser),
  ("guiDeckOverview", handleGuiDeckOverview),
  ("guiDeckReview", handleGuiDeckReview),
  ("guiImportFile", handleGuiImportFile),
  ("guiExitAnki", handleGuiExitAnki),
  ("guiCheckDatabase", handleGuiCheckDatabase),
  ("getNumCardsReviewedToday", handleGetNumCardsReviewedToday),
  ("getNumCardsReviewedByDay", handleGetNumCardsReviewedByDay),
  ("getCollectionStatsHTML", handleGetCollectionStatsHTML),
  ("cardReviews", handleCardReviews),
  ("getReviewsOfCards", handleGetReviewsOfCards),
  ("getLatestReviewID", handleGetLatestReviewID),
  ("insertReviews", handleInsertReviews),
  ("requestPermission", handleRequestPermission),
  ("version", handleVersion),
  ("apiReflect", handleApiReflect),
  ("sync", handleSync),
  ("getProfiles", handleGetProfiles),
  ("getActiveProfile", handleGetActiveProfile),
  ("loadProfile", handleLoadProfile),
  ("multi", handleMulti),
  ("exportPackage", handleExportPackage),
  ("importPackage", handleImportPackage),
  ("reloadCollection", handleReloadCollection)
]

/-- Static descriptor of one registered tool: its `name` together with
the `required` list and the top-level property names of its `inputSchema`
(description strings are omitted; no claim concerns them). -/
structure ToolDescriptor where
  name : String
  required : List String
  properties : List String
deriving Repr, DecidableEq

/-- Embedding of `getTools` (`tools.js` lines 4947-5081): the complete
static catalogue, in source order. -/
def getTools : List ToolDescriptor := [
  ToolDescriptor.mk "getEaseFactors" ["cards"] ["cards"],
  ToolDescriptor.mk "setEaseFactors" ["cards", "easeFactors"] ["cards", "easeFactors"],
  ToolDescriptor.mk "setSpecificValueOfCard" ["card", "keys", "newValues"] ["card", "keys", "newValues", "warning_check"],
  ToolDescriptor.mk "suspend" ["cards"] ["cards"],
  ToolDescriptor.mk "unsuspend" ["cards"] ["cards"],
  ToolDescriptor.mk "suspended" ["card"] ["card"],
  ToolDescriptor.mk "areSuspended" ["cards"] ["cards"],
  ToolDescriptor.mk "areDue" ["cards"] ["cards"],
  ToolDescriptor.mk "getIntervals" ["cards"] ["cards", "complete"],
  ToolDescriptor.mk "findCards" ["query"] ["query"],
  ToolDescriptor.mk "cardsToNotes" ["cards"] ["cards"],
  ToolDescriptor.mk "cardsModTime" ["cards"] ["cards"],
  ToolDescriptor.mk "cardsInfo" ["cards"] ["cards"],
  ToolDescriptor.mk "forgetCards" ["cards"] ["cards"],
  ToolDescriptor.mk "relearnCards" ["cards"] ["cards"],
  ToolDescriptor.mk "answerCards" ["answers"] ["answers"],
  ToolDescriptor.mk "setDueDate" ["cards", "days"] ["cards", "days"],
  ToolDescriptor.mk "getDeckNames" [] [],
  ToolDescriptor.mk "createDeck" ["deck"] ["deck"],
  ToolDescriptor.mk "deckNamesAndIds" [] [],
  ToolDescriptor.mk "getDecks" ["cards"] ["cards"],
  ToolDescriptor.mk "changeDeck" ["cards", "deck"] ["cards", "deck"],
  ToolDescriptor.mk "deleteDecks" ["decks"] ["decks", "cardsToo"],
  ToolDescriptor.mk "getDeckConfig" ["deck"] ["deck"],
  ToolDescriptor.mk "saveDeckConfig" ["config"] ["config"],
  ToolDescriptor.mk "setDeckConfigId" ["decks", "configId"] ["decks", "configId"],
  ToolDescriptor.mk "cloneDeckConfigId" ["name", "cloneFrom"] ["name", "cloneFrom"],
  ToolDescriptor.mk "removeDeckConfigId" ["configId"] ["configId"],
  ToolDescriptor.mk "getDeckStats" ["decks"] ["decks"],
  ToolDescriptor.mk "modelNames" [] [],
  ToolDescriptor.mk "modelNamesAndIds" [] [],
  ToolDescriptor.mk "findModelsById" ["modelIds"] ["modelIds"],
  ToolDescriptor.mk "findModelsByName" ["modelNames"] ["modelNames"],
  ToolDescriptor.mk "modelFieldNames" ["modelName"] ["modelName"],
  ToolDescriptor.mk "modelFieldDescriptions" ["modelName"] ["modelName"],
  ToolDescriptor.mk "modelFieldFonts" ["modelName"] ["modelName"],
  ToolDescriptor.mk "modelFieldsOnTemplates" ["modelName"] ["modelName"],
  ToolDescriptor.mk "modelTemplates" ["modelName"] ["modelName"],
  ToolDescriptor.mk "modelStyling" ["modelName"] ["modelName"],
  ToolDescriptor.mk "updateModelTemplates" ["model"] ["model"],
  ToolDescriptor.mk "updateModelStyling" ["model"] ["model"],
  ToolDescriptor.mk "findAndReplaceInModels" ["model"] ["model"],
  ToolDescriptor.mk "modelTemplateRename" ["modelName", "oldTemplateName", "newTemplateName"] ["modelName", "oldTemplateName", "newTemplateName"],
  ToolDescriptor.mk "modelTemplateReposition" ["modelName", "templateName", "index"] ["modelName", "templateName", "index"],
  ToolDescriptor.mk "modelTemplateAdd" ["modelName", "template"] ["modelName", "template"],
  ToolDescriptor.mk "modelTemplateRemove" ["modelName", "templateName"] ["modelName", "templateName"],
  ToolDescriptor.mk "modelFieldRename" ["modelName", "oldFieldName", "newFieldName"] ["modelName", "oldFieldName", "newFieldName"],
  ToolDescriptor.mk "modelFieldReposition" ["modelName", "fieldName", "index"] ["modelName", "fieldName", "index"],
  ToolDescriptor.mk "modelFieldAdd" ["modelName", "fieldName"] ["modelName", "fieldName", "index"],
  ToolDescriptor.mk "modelFieldRemove" ["modelName", "fieldName"] ["modelName", "fieldName"],
  ToolDescriptor.mk "modelFieldSetFont" ["modelName", "fieldName", "font"] ["modelName", "fieldName", "font"],
  ToolDescriptor.mk "modelFieldSetFontSize" ["modelName", "fieldName", "fontSize"] ["modelName", "fieldName", "fontSize"],
  ToolDescriptor.mk "modelFieldSetDescription" ["modelName", "fieldName", "description"] ["modelName", "fieldName", "description"],
  ToolDescriptor.mk "createModel" ["modelName", "inOrderFields", "cardTemplates"] ["modelName", "inOrderFields", "css", "isCloze", "cardTemplates"],
  ToolDescriptor.mk "addNote" ["note"] ["note"],
  ToolDescriptor.mk "addNotes" ["notes"] ["notes"],
  ToolDescriptor.mk "canAddNotes" ["notes"] ["notes"],
  ToolDescriptor.mk "canAddNotesWithErrorDetail" ["notes"] ["notes"],
  ToolDescriptor.mk "findNotes" ["query"] ["query"],
  ToolDescriptor.mk "notesInfo" ["notes"] ["notes"],
  ToolDescriptor.mk "notesModTime" ["notes"] ["notes"],
  ToolDescriptor.mk "updateNoteFields" ["note"] ["note"],
  ToolDescriptor.mk "updateNote" ["note"] ["note"],
  ToolDescriptor.mk "updateNoteModel" ["note"] ["note"],
  ToolDescriptor.mk "deleteNotes" ["notes"] ["notes"],
  ToolDescriptor.mk "removeEmptyNotes" [] [],
  ToolDescriptor.mk "getTags" [] [],
  ToolDescriptor.mk "updateNoteTags" ["note", "tags"] ["note", "tags"],
  ToolDescriptor.mk "getNoteTags" ["note"] ["note"],
  ToolDescriptor.mk "addTags" ["notes", "tags"] ["notes", "tags"],
  ToolDescriptor.mk "removeTags" ["notes", "tags"] ["notes", "tags"],
  ToolDescriptor.mk "clearUnusedTags" [] [],
  ToolDescriptor.mk "replaceTags" ["notes", "tag_to_replace", "replace_with_tag"] ["notes", "tag_to_replace", "replace_with_tag"],
  ToolDescriptor.mk "replaceTagsInAllNotes" ["tag_to_replace", "replace_with_tag"] ["tag_to_replace", "replace_with_tag"],
  ToolDescriptor.mk "storeMediaFile" ["filename", "data"] ["filename", "data"],
  ToolDescriptor.mk "retrieveMediaFile" ["filename"] ["filename"],
  ToolDescriptor.mk "getMediaFilesNames" [] ["pattern"],
  ToolDescriptor.mk "getMediaDirPath" [] [],
  ToolDescriptor.mk "deleteMediaFile" ["filename"] ["filename"],
  ToolDescriptor.mk "guiBrowse" ["query"] ["query", "reorderCards"],
  ToolDescriptor.mk "guiSelectCard" ["card"] ["card"],
  ToolDescriptor.mk "guiSelectedNotes" [] [],
  ToolDescriptor.mk "guiAddCards" ["note"] ["note"],
  ToolDescriptor.mk "guiEditNote" ["note"] ["note"],
  ToolDescriptor.mk "guiCurrentCard" [] [],
  ToolDescriptor.mk "guiStartCardTimer" [] [],
  ToolDescriptor.mk "guiShowQuestion" [] [],
  ToolDescriptor.mk "guiShowAnswer" [] [],
  ToolDescriptor.mk "guiAnswerCard" ["ease"] ["ease"],
  ToolDescriptor.mk "guiUndo" [] [],
  ToolDescriptor.mk "guiDeckBrowser" [] [],
  ToolDescriptor.mk "guiDeckOverview" ["name"] ["name"],
  ToolDescriptor.mk "guiDeckReview" ["name"] ["name"],
  ToolDescriptor.mk "guiImportFile" [] ["path"],
  ToolDescriptor.mk "guiExitAnki" [] [],
  ToolDescriptor.mk "guiCheckDatabase" [] [],
  ToolDescriptor.mk "getNumCardsReviewedToday" [] [],
  ToolDescriptor.mk "getNumCardsReviewedByDay" [] [],
  ToolDescriptor.mk "getCollectionStatsHTML" [] ["wholeCollection"],
  ToolDescriptor.mk "cardReviews" ["deck", "startID"] ["deck", "startID"],
  ToolDescriptor.mk "getReviewsOfCards" ["cards"] ["cards"],
  ToolDescriptor.mk "getLatestReviewID" ["deck"] ["deck"],
  ToolDescriptor.mk "insertReviews" ["reviews"] ["reviews"],
  ToolDescriptor.mk "requestPermission" [] [],
  ToolDescriptor.mk "version" [] [],
  ToolDescriptor.mk "apiReflect" [] ["scopes", "actions"],
  ToolDescriptor.mk "sync" [] [],
  ToolDescriptor.mk "getProfiles" [] [],
  ToolDescriptor.mk "getActiveProfile" [] [],
  ToolDescriptor.mk "loadProfile" ["name"] ["name"],
  ToolDescriptor.mk "multi" ["actions"] ["actions"],
  ToolDescriptor.mk "exportPackage" ["deck", "path"] ["deck", "path", "includeSched"],
  ToolDescriptor.mk "importPackage" ["path"] ["path"],
  ToolDescriptor.mk "reloadCollection" [] []
]
/-- First-match lookup in the dispatch table (a JavaScript `switch` over
distinct string literals selects the first matching case). -/
def lookupImpl : List (String × ToolImpl) → String → Option ToolImpl
  | [], _ => none
  | (n, impl) :: rest, name => if n = name then some impl else lookupImpl rest name

/-- Embedding of `handleToolCall` (`tools.js` lines 5084-5335): dispatch on
the tool name through the registry; an unregistered name falls through to
the `default` branch throwing `ToolNotFound`. -/
def handleToolCall (ep : Endpoint) (toolName : String) (args : Json) :
    Except CallError ToolResult × List Request :=
  match lookupImpl toolRegistry toolName with
  | some impl => runTool impl ep args
  | none => (.error (.mcp ⟨.ToolNotFound, "Tool not found: " ++ toolName⟩), [])

/-- Outcome of the outer `CallToolRequestSchema` handler: a content reply
(possibly a soft error) or a re-thrown `McpError` surfaced to the protocol
runtime. -/
inductive BoundaryOutcome where
  | reply (r : ToolResult)
  | protocolError (e : McpError)

/-- Embedding of the `CallToolRequestSchema` handler of `index.js`: run the
dispatcher; re-throw a typed `McpError`; convert any other exception into a
soft content block `Error: <message>` flagged `isError: true`. -/
def callToolRequest (ep : Endpoint) (name : String) (args : Json) :
    BoundaryOutcome × List Request :=
  match handleToolCall ep name args with
  | (.ok r, reqs) => (.reply r, reqs)
  | (.error (.mcp e), reqs) => (.protocolError e, reqs)
  | (.error (.invoke e), reqs) =>
      (.reply { content := [{ type := "text", text := .str ("Error: " ++ e.message) }],
                isError := some true }, reqs)

/-!
Auxiliary notions used by the statements: substring occurrence (to express
that a validation message names a field), the argument fields a check or a
handler reads, and the set of tools whose formatter passes the raw remote
result through as the text payload.
-/

/-- Test that `sub` is an initial segment of `s` (on character lists). -/
def startsWithChars : List Char → List Char → Bool
  | [], _ => true
  | _ :: _, [] => false
  | a :: as, b :: bs => a == b && startsWithChars as bs

/-- Test that `sub` occurs contiguously inside `s` (on character lists). -/
def hasSubstringChars (sub : List Char) : List Char → Bool
  | [] => sub.isEmpty
  | c :: rest => startsWithChars sub (c :: rest) || hasSubstringChars sub rest

/-- Whether the message `msg` names the field `f`, i.e. contains it as a
contiguous substring. -/
def mentions (msg f : String) : Bool :=
  hasSubstringChars f.toList msg.toList

/-- The argument fields whose values a check reads: its own field, plus
the sibling array for a paired-length check. -/
def Check.fieldsRead (c : Check) : List String :=
  match c.kind with
  | .sameLength other => [c.field, other]
  | _ => [c.field]

/-- Whether a check reads the field `f`. -/
def Check.involves (c : Check) (f : String) : Bool :=
  c.fieldsRead.contains f

/-- The argument field a parameter-copy statement reads. -/
def ParamSpec.fieldRead : ParamSpec → String
  | .req f => f
  | .optTruthy f => f
  | .optDefined f => f

/-- The argument fields a formatter reads (only the two
`statusWithField` handlers interpolate an argument). -/
def FmtSpec.fieldsRead : FmtSpec → List String
  | .statusWithField f _ _ _ _ => [f]
  | _ => []

/-- Every caller-argument field a handler reads anywhere: in its checks,
its parameter copies, or its formatter. -/
def relevantFields (impl : ToolImpl) : List String :=
  (impl.checks.map Check.fieldsRead).flatten ++
    impl.params.map ParamSpec.fieldRead ++ impl.fmt.fieldsRead

/-- Whether a formatter always produces a string text payload (all
formatters except the raw pass-throughs do). -/
def FmtSpec.producesString : FmtSpec → Bool
  | .raw => false
  | .rawOrNotFound => false
  | _ => true

/-- The three tools whose handler places the raw remote result in the
`text` payload (`retrieveMediaFile` only when the result is not
`false`). -/
def rawResultTools : List String :=
  ["retrieveMediaFile", "getMediaDirPath", "getCollectionStatsHTML"]

/-!
Generic lemmas about the handler skeleton.
-/

/-- A failing validation run yields the thrown error and no network
activity. -/
theorem runTool_of_checks_fail {impl : ToolImpl} {args : Json} {e : McpError}
    (h : runChecks args impl.checks = some e) (ep : Endpoint) :
    runTool impl ep args = (.error (.mcp e), []) := by
  simp [runTool, h]

/-- A successful call returns exactly one `"text"` content block, whose
payload is the formatter applied to the unwrapped result, and no `isError`
flag. -/
theorem runTool_ok_shape {impl : ToolImpl} {ep : Endpoint} {args : Json}
    {r : ToolResult} (h : (runTool impl ep args).fst = .ok r) :
    ∃ result, r = { content := [{ type := "text", text := applyFmt args result impl.fmt }],
                    isError := none } := by
  unfold runTool at h
  rcases hc : runChecks args impl.checks with _ | e
  · rw [hc] at h
    simp only at h
    rcases hi : invokeAnkiConnect ep impl.action (buildParams args impl.params) with ⟨res, req⟩
    rw [hi] at h
    rcases res with e' | result
    · simp at h
    · simp at h
      exact ⟨result, h.symm⟩
  · rw [hc] at h
    simp at h

/-- A call performs no exchange (validation failed) or exactly one
exchange, whose request is the fixed URL, the action of the handler, the
copied parameter fields and protocol version 6. -/
theorem runTool_requests (impl : ToolImpl) (ep : Endpoint) (args : Json) :
    (runTool impl ep args).snd = [] ∨
      (runTool impl ep args).snd =
        [⟨ANKI_CONNECT_URL, impl.action, buildParams args impl.params, 6⟩] := by
  unfold runTool
  rcases hc : runChecks args impl.checks with _ | e
  · rcases hi : invokeAnkiConnect ep impl.action (buildParams args impl.params) with ⟨res, req⟩
    have hreq : req = ⟨ANKI_CONNECT_URL, impl.action, buildParams args impl.params, 6⟩ := by
      have : (invokeAnkiConnect ep impl.action (buildParams args impl.params)).snd =
          ⟨ANKI_CONNECT_URL, impl.action, buildParams args impl.params, 6⟩ := rfl
      rw [hi] at this
      exact this
    rcases res with e' | result <;> simp [hreq]
  · simp

/-- After a fully passing validation run the call never fails with a
typed `McpError`: the outcome is the unwrapped result or a propagated
invoker error. -/
theorem runTool_no_mcp_of_checks_pass {impl : ToolImpl} {args : Json}
    (h : runChecks args impl.checks = none) (ep : Endpoint) (e : McpError) :
    (runTool impl ep args).fst ≠ .error (.mcp e) := by
  unfold runTool
  rw [h]
  rcases hi : invokeAnkiConnect ep impl.action (buildParams args impl.params) with ⟨res, req⟩
  rcases res with e' | result <;> simp

/-- Validation succeeds when every check passes. -/
theorem runChecks_none_of_all_pass {args : Json} :
    ∀ {cs : List Check}, (∀ c ∈ cs, checkPasses args c = true) →
      runChecks args cs = none := by
  intro cs
  induction cs with
  | nil => intro _; rfl
  | cons c rest ih =>
      intro h
      have hc := h c (List.mem_cons_self c rest)
      simp [runChecks, hc]
      exact ih fun d hd => h d (List.mem_cons_of_mem c hd)

/-- A check involving a field fails whenever that field is absent from the
arguments: every test shape of the source requires its guarded field (and,
for the paired-length test, both arrays) to be present. -/
theorem checkPasses_false_of_absent {args : Json} {f : String} {c : Check}
    (hinv : c.involves f = true) (habs : getField args f = none) :
    checkPasses args c = false := by
  unfold Check.involves Check.fieldsRead at hinv
  rcases c with ⟨fld, kind, msg⟩
  rcases kind <;> simp_all [checkPasses, List.contains] <;>
    first
    | (rcases hinv with h | h <;> subst h <;>
        simp only [habs, truthyOpt, sameLen, Bool.false_and] <;>
        rcases hg : getField args fld with _ | v <;> try rcases v) <;>
      simp [sameLen]
    | (subst hinv; simp [habs, truthyOpt, isNumberOpt, allTuples9])

/-- When every check not involving `f` passes and every check involving
`f` fails, validation throws the error of the first check involving `f`. -/
theorem runChecks_first_involving {args : Json} {f : String} :
    ∀ {cs : List Check},
      (∀ c ∈ cs, c.involves f = false → checkPasses args c = true) →
      (∀ c ∈ cs, c.involves f = true → checkPasses args c = false) →
      ∀ {c : Check}, cs.find? (fun c => c.involves f) = some c →
        runChecks args cs = some ⟨.InvalidParams, c.msg⟩ := by
  intro cs
  induction cs with
  | nil => intro _ _ c hfind; simp at hfind
  | cons d rest ih =>
      intro hpass hfail c hfind
      rcases hd : d.involves f with _ | _
      · have hdp : checkPasses args d = true :=
          hpass d (List.mem_cons_self d rest) hd
        rw [List.find?_cons_of_neg _ (by simp [hd])] at hfind
        simp [runChecks, hdp]
        exact ih (fun e he => hpass e (List.mem_cons_of_mem d he))
          (fun e he => hfail e (List.mem_cons_of_mem d he)) hfind
      · have hdf : checkPasses args d = false :=
          hfail d (List.mem_cons_self d rest) hd
        rw [List.find?_cons_of_pos _ (by simp [hd])] at hfind
        cases hfind
        simp [runChecks, hdf]

/-- Lookup in the dispatch table fails exactly on the names outside it. -/
theorem lookupImpl_eq_none {l : List (String × ToolImpl)} {name : String}
    (h : name ∉ l.map Prod.fst) : lookupImpl l name = none := by
  induction l with
  | nil => rfl
  | cons p rest ih =>
      simp only [List.map_cons, List.mem_cons] at h
      push_neg at h
      simp [lookupImpl, Ne.symm h.1, ih h.2]

/-- A successful lookup returns an entry of the table. -/
theorem lookupImpl_mem {l : List (String × ToolImpl)} {name : String}
    {impl : ToolImpl} (h : lookupImpl l name = some impl) :
    (name, impl) ∈ l := by
  induction l with
  | nil => simp [lookupImpl] at h
  | cons p rest ih =>
      rcases p with ⟨n, i⟩
      by_cases hn : n = name
      · subst hn
        simp [lookupImpl] at h
        simp [h]
      · simp [lookupImpl, hn] at h
        exact List.mem_cons_of_mem _ (ih h)

/-- A registered name is found by lookup. -/
theorem lookupImpl_isSome {l : List (String × ToolImpl)} {name : String}
    (h : name ∈ l.map Prod.fst) : (lookupImpl l name).isSome := by
  induction l with
  | nil => simp at h
  | cons p rest ih =>
      rcases p with ⟨n, i⟩
      by_cases hn : n = name
      · simp [lookupImpl, hn]
      · simp only [List.map_cons, List.mem_cons] at h
        rcases h with h | h
        · exact absurd h.symm hn
        · simp [lookupImpl, hn, ih h]

/-- The request an invocation sends is exactly the body
`{action, params, version}` aimed at the fixed endpoint address. -/
theorem invokeAnkiConnect_request (ep : Endpoint) (action : String)
    (params : List (String × Json)) (version : Int) :
    (invokeAnkiConnect ep action params version).snd =
      ⟨ANKI_CONNECT_URL, action, params, version⟩ := rfl

/-- With the `error` key bound to `null` and the `result` key present,
the invocation unwraps and returns the result unchanged. -/
theorem invokeAnkiConnect_ok {ep : Endpoint} {action : String}
    {params : List (String × Json)} {version : Int} {body R : Json}
    (hep : ep ⟨ANKI_CONNECT_URL, action, params, version⟩ = .ok body)
    (herr : getField body "error" = some .null)
    (hres : getField body "result" = some R) :
    (invokeAnkiConnect ep action params version).fst = .ok R := by
  unfold invokeAnkiConnect
  simp [hep, hasKey, herr, hres, jget, truthy]

/-- With the `error` key bound to a non-empty string and the `result` key
present, the invocation fails with a `RemoteActionError` carrying exactly
the endpoint-supplied string. -/
theorem invokeAnkiConnect_remote_error {ep : Endpoint} {action : String}
    {params : List (String × Json)} {version : Int} {body : Json} {msg : String}
    (hep : ep ⟨ANKI_CONNECT_URL, action, params, version⟩ = .ok body)
    (herr : getField body "error" = some (.str msg))
    (hres : hasKey body "result" = true)
    (hne : msg ≠ "") :
    (invokeAnkiConnect ep action params version).fst =
      .error (.remoteAction msg) := by
  unfold invokeAnkiConnect
  simp [hep, hasKey, herr, hres, jget, truthy, hne]
  simp [hasKey] at hres
  simp [hres, jsToString]

/-- A decoded object reply missing the `error` key or the `result` key
makes the invocation fail with the corresponding protocol-violation
message, whatever the value of any `error` field. -/
theorem invokeAnkiConnect_protocol_violation {ep : Endpoint} {action : String}
    {params : List (String × Json)} {version : Int} {fields : List (String × Json)}
    (hep : ep ⟨ANKI_CONNECT_URL, action, params, version⟩ = .ok (.obj fields))
    (h : hasKey (.obj fields) "error" = false ∨ hasKey (.obj fields) "result" = false) :
    (invokeAnkiConnect ep action params version).fst =
        .error (.protocolViolation "Response is missing required error field") ∨
      (invokeAnkiConnect ep action params version).fst =
        .error (.protocolViolation "Response is missing required result field") := by
  unfold invokeAnkiConnect
  rcases herr : hasKey (Json.obj fields) "error" with _ | _
  · left
    simp [hep, herr]
  · right
    rcases h with h | h
    · rw [herr] at h; cases h
    · simp [hep, herr, h]

/-- A check reads only the fields in `Check.fieldsRead`: two argument
objects agreeing on them are checked identically. -/
theorem checkPasses_congr {a b : Json} {c : Check}
    (h : ∀ f ∈ c.fieldsRead, getField a f = getField b f) :
    checkPasses a c = checkPasses b c := by
  rcases c with ⟨fld, kind, msg⟩
  rcases kind <;>
    simp only [Check.fieldsRead] at h <;>
    simp_all [checkPasses]

/-- Validation reads only the fields of its checks. -/
theorem runChecks_congr {a b : Json} :
    ∀ {cs : List Check},
      (∀ c ∈ cs, ∀ f ∈ c.fieldsRead, getField a f = getField b f) →
      runChecks a cs = runChecks b cs := by
  intro cs
  induction cs with
  | nil => intro _; rfl
  | cons c rest ih =>
      intro h
      have hc : checkPasses a c = checkPasses b c :=
        checkPasses_congr (h c (List.mem_cons_self c rest))
      simp only [runChecks, hc]
      rw [ih fun d hd => h d (List.mem_cons_of_mem c hd)]

/-- Parameter construction reads only the copied fields. -/
theorem buildParams_congr {a b : Json} :
    ∀ {ps : List ParamSpec},
      (∀ p ∈ ps, getField a p.fieldRead = getField b p.fieldRead) →
      buildParams a ps = buildParams b ps := by
  intro ps
  induction ps with
  | nil => intro _; rfl
  | cons p rest ih =>
      intro h
      have hp := h p (List.mem_cons_self p rest)
      have hrest := ih fun q hq => h q (List.mem_cons_of_mem p hq)
      rcases p with f | f | f <;>
        simp only [ParamSpec.fieldRead] at hp <;>
        simp [buildParams, jget, hp, hrest]

/-- A formatter reads only the fields in `FmtSpec.fieldsRead`. -/
theorem applyFmt_congr {a b result : Json} {fmt : FmtSpec}
    (h : ∀ f ∈ fmt.fieldsRead, getField a f = getField b f) :
    applyFmt a result fmt = applyFmt b result fmt := by
  rcases fmt <;> simp_all [FmtSpec.fieldsRead, applyFmt, jget]

/-- A handler reads only its relevant fields: two argument objects
agreeing on them produce identical calls (same validation outcome, same
request, same result). -/
theorem runTool_congr {impl : ToolImpl} {ep : Endpoint} {a b : Json}
    (h : ∀ f ∈ relevantFields impl, getField a f = getField b f) :
    runTool impl ep a = runTool impl ep b := by
  have hchecks : ∀ c ∈ impl.checks, ∀ f ∈ c.fieldsRead,
      getField a f = getField b f := by
    intro c hc f hf
    exact h f (by
      simp only [relevantFields, List.mem_append]
      exact Or.inl (Or.inl (by
        simp only [List.mem_flatten, List.mem_map]
        exact ⟨c.fieldsRead, ⟨c, hc, rfl⟩, hf⟩)))
  have hparams : ∀ p ∈ impl.params,
      getField a p.fieldRead = getField b p.fieldRead := by
    intro p hp
    exact h p.fieldRead (by
      simp only [relevantFields, List.mem_append]
      exact Or.inl (Or.inr (List.mem_map.mpr ⟨p, hp, rfl⟩)))
  have hfmt : ∀ f ∈ impl.fmt.fieldsRead, getField a f = getField b f := by
    intro f hf
    exact h f (by simp only [relevantFields, List.mem_append]; exact Or.inr hf)
  unfold runTool
  rw [runChecks_congr hchecks, buildParams_congr hparams]
  rcases hc : runChecks b impl.checks with _ | e
  · rcases hi : invokeAnkiConnect ep impl.action (buildParams b impl.params) with ⟨res, req⟩
    rcases res with e' | result
    · simp
    · simp [applyFmt_congr hfmt]
  · simp

/-- Appending a fresh field at the end of an object literal does not
change the lookup of any other key. -/
theorem lookupField_append_ne {l : List (String × Json)} {g f : String}
    {v : Json} (h : f ≠ g) :
    lookupField (l ++ [(g, v)]) f = lookupField l f := by
  induction l with
  | nil => simp [lookupField, Ne.symm h]
  | cons p rest ih =>
      rcases p with ⟨k, w⟩
      by_cases hk : k = f
      · simp [lookupField, hk]
      · simp [lookupField, hk, ih]

/-!
Decidable registry-wide facts, checked by evaluation over the transcribed
tables.
-/

/-- For every registered tool and every field its schema lists as
required, the first validation check reading that field throws a message
that names the field. -/
def requiredChecksNamed : Bool :=
  toolRegistry.all fun p =>
    getTools.all fun d =>
      d.name != p.fst ||
        d.required.all fun f =>
          match p.snd.checks.find? (fun c => c.involves f) with
          | some c => mentions c.msg f
          | none => false

/-- Every argument field a handler reads is declared among the top-level
properties of the corresponding input schema. -/
def relevantWithinSchema : Bool :=
  toolRegistry.all fun p =>
    getTools.all fun d =>
      d.name != p.fst ||
        (relevantFields p.snd).all fun f => d.properties.contains f

/-- Every tool outside the raw pass-through set has a string-producing
formatter. -/
def nonRawProducesString : Bool :=
  toolRegistry.all fun p =>
    rawResultTools.contains p.fst || p.snd.fmt.producesString

set_option maxRecDepth 200000 in
theorem requiredChecksNamed_holds : requiredChecksNamed = true := by decide

set_option maxRecDepth 200000 in
theorem relevantWithinSchema_holds : relevantWithinSchema = true := by decide

theorem nonRawProducesString_holds : nonRawProducesString = true := by decide

/-- A string-producing formatter yields a string payload on every result. -/
theorem applyFmt_str_of_producesString {fmt : FmtSpec}
    (h : fmt.producesString = true) (args result : Json) :
    ∃ s, applyFmt args result fmt = .str s := by
  rcases fmt <;> simp_all [FmtSpec.producesString, applyFmt]

/-- Every successful dispatch returns one `"text"` block and no `isError`
flag. -/
theorem handleToolCall_ok_shape {ep : Endpoint} {name : String} {args : Json}
    {r : ToolResult} (h : (handleToolCall ep name args).fst = .ok r) :
    r.isError = none ∧ ∃ t, r.content = [⟨"text", t⟩] := by
  unfold handleToolCall at h
  rcases hlk : lookupImpl toolRegistry name with _ | impl
  · rw [hlk] at h
    simp at h
  · rw [hlk] at h
    obtain ⟨result, hr⟩ := runTool_ok_shape h
    subst hr
    exact ⟨rfl, _, rfl⟩

/-- Endpoint oracle answering every request with the same decoded body. -/
def constEndpoint (body : Json) : Endpoint := fun _ => .ok body

/-- A successful lookup makes the dispatcher run the found handler. -/
theorem handleToolCall_lookup {name : String} {impl : ToolImpl}
    (h : lookupImpl toolRegistry name = some impl) (ep : Endpoint) (args : Json) :
    handleToolCall ep name args = runTool impl ep args := by
  unfold handleToolCall
  rw [h]

/-- C1 (amended). For every invocation and every tool call in which the
remote endpoint replies with an envelope whose `error` field is a
non-empty string `msg` (a truthy value in the source's `if (data.error)`
test), the call fails with a `RemoteActionError` whose message is exactly
`msg`, with no wrapping or translation.  The empty string is excluded: it
is falsy, so the source treats it as "no error" (see the counterexample
theorem). -/
theorem c1_remote_error_passthrough :
    (∀ (ep : Endpoint) (action : String) (params : List (String × Json))
        (version : Int) (body : Json) (msg : String),
        ep ⟨ANKI_CONNECT_URL, action, params, version⟩ = .ok body →
        getField body "error" = some (.str msg) →
        hasKey body "result" = true →
        msg ≠ "" →
        (invokeAnkiConnect ep action params version).fst =
          .error (.remoteAction msg)) ∧
    (∀ (name : String) (impl : ToolImpl) (ep : Endpoint) (args body : Json)
        (msg : String),
        lookupImpl toolRegistry name = some impl →
        runChecks args impl.checks = none →
        ep ⟨ANKI_CONNECT_URL, impl.action, buildParams args impl.params, 6⟩ = .ok body →
        getField body "error" = some (.str msg) →
        hasKey body "result" = true →
        msg ≠ "" →
        (handleToolCall ep name args).fst =
          .error (.invoke (.remoteAction msg))) := by
  constructor
  · intro ep action params version body msg hep herr hres hne
    exact invokeAnkiConnect_remote_error hep herr hres hne
  · intro name impl ep args body msg hlk hck hep herr hres hne
    rw [handleToolCall_lookup hlk ep args]
    unfold runTool
    rw [hck]
    rcases hi : invokeAnkiConnect ep impl.action (buildParams args impl.params)
      with ⟨res, req⟩
    have hfst : res = .error (.remoteAction msg) := by
      have h := invokeAnkiConnect_remote_error hep herr hres hne
      rw [hi] at h
      exact h
    subst hfst
    simp

/-- C1 counterexample. When the endpoint replies `{error: "", result:
null}` — `error` bound to the string `""` — the invocation succeeds with
the `null` result instead of failing with a `RemoteActionError`, because
`if (data.error)` tests truthiness and the empty string is falsy. -/
theorem c1_empty_error_not_raised :
    (invokeAnkiConnect
        (constEndpoint (.obj [("error", .str ""), ("result", .null)]))
        "deckNames").fst = .ok .null ∧
    ((invokeAnkiConnect
        (constEndpoint (.obj [("error", .str ""), ("result", .null)]))
        "deckNames").fst matches .error (.remoteAction _)) = false :=
  ⟨rfl, rfl⟩

/-- C1 witness: a concrete non-empty remote error string reaches the
caller verbatim. -/
theorem c1_remote_error_witness :
    (invokeAnkiConnect
        (constEndpoint (.obj [("error", .str "deck was not found"), ("result", .null)]))
        "createDeck" [("deck", .str "Spanish")] 6).fst =
      .error (.remoteAction "deck was not found") :=
  c1_remote_error_passthrough.1
    (constEndpoint (.obj [("error", .str "deck was not found"), ("result", .null)]))
    "createDeck" [("deck", .str "Spanish")] 6 _ _ rfl rfl rfl (by decide)

/-- C3 (confirmed). A decoded reply that is a JSON object missing the
`error` key or the `result` key makes the call fail with a
`ProtocolViolationError` carrying the corresponding "missing field"
message — never a success, and never a transport or remote-action
failure — independently of the value of any `error` field. -/
theorem c3_missing_envelope_key :
    ∀ (ep : Endpoint) (action : String) (params : List (String × Json))
      (version : Int) (fields : List (String × Json)),
      ep ⟨ANKI_CONNECT_URL, action, params, version⟩ = .ok (.obj fields) →
      (hasKey (.obj fields) "error" = false ∨ hasKey (.obj fields) "result" = false) →
      (∃ msg, (invokeAnkiConnect ep action params version).fst =
          .error (.protocolViolation msg) ∧
        (msg = "Response is missing required error field" ∨
         msg = "Response is missing required result field")) ∧
      (∀ R, (invokeAnkiConnect ep action params version).fst ≠ .ok R) ∧
      (∀ m, (invokeAnkiConnect ep action params version).fst ≠
          .error (.transport m)) ∧
      (∀ m, (invokeAnkiConnect ep action params version).fst ≠
          .error (.remoteAction m)) := by
  intro ep action params version fields hep h
  rcases invokeAnkiConnect_protocol_violation hep h with heq | heq <;>
    rw [heq] <;>
    exact ⟨⟨_, rfl, by simp⟩, by simp, by simp, by simp⟩

/-- C3 witness: a reply `{error: null}` with no `result` key fails with
the protocol-violation message for the missing `result` field. -/
theorem c3_missing_result_witness :
    (∃ msg, (invokeAnkiConnect (constEndpoint (.obj [("error", .null)]))
        "deckNames" [] 6).fst = .error (.protocolViolation msg) ∧
      (msg = "Response is missing required error field" ∨
       msg = "Response is missing required result field")) ∧
    (∀ R, (invokeAnkiConnect (constEndpoint (.obj [("error", .null)]))
        "deckNames" [] 6).fst ≠ .ok R) ∧
    (∀ m, (invokeAnkiConnect (constEndpoint (.obj [("error", .null)]))
        "deckNames" [] 6).fst ≠ .error (.transport m)) ∧
    (∀ m, (invokeAnkiConnect (constEndpoint (.obj [("error", .null)]))
        "deckNames" [] 6).fst ≠ .error (.remoteAction m)) :=
  c3_missing_envelope_key (constEndpoint (.obj [("error", .null)]))
    "deckNames" [] 6 [("error", .null)] rfl (Or.inr rfl)

/-- C4 (confirmed). Every invocation serializes exactly
`{action, params, version}` as the body of one POST to the fixed local
endpoint address, with `params` defaulting to the empty object and
`version` defaulting to 6; every tool call issues at most one such
request, carrying the action and copied parameters of its handler; and
the `createDeck` end-to-end example sends
`{action: "createDeck", params: {deck: "Spanish"}, version: 6}` and
renders the replied deck identifier `1694938000000` in the content
text. -/
theorem c4_request_construction :
    (∀ (ep : Endpoint) (action : String) (params : List (String × Json))
        (version : Int),
        (invokeAnkiConnect ep action params version).snd =
          ⟨ANKI_CONNECT_URL, action, params, version⟩) ∧
    (∀ (ep : Endpoint) (action : String),
        (invokeAnkiConnect ep action).snd = ⟨ANKI_CONNECT_URL, action, [], 6⟩) ∧
    (∀ (impl : ToolImpl) (ep : Endpoint) (args : Json),
        (runTool impl ep args).snd = [] ∨
          (runTool impl ep args).snd =
            [⟨ANKI_CONNECT_URL, impl.action, buildParams args impl.params, 6⟩]) ∧
    handleToolCall
        (constEndpoint (.obj [("error", .null), ("result", .num 1694938000000)]))
        "createDeck" (.obj [("deck", .str "Spanish")]) =
      (.ok { content := [{ type := "text",
                           text := .str "Deck created with ID: 1694938000000" }] },
       [⟨ANKI_CONNECT_URL, "createDeck", [("deck", .str "Spanish")], 6⟩]) ∧
    mentions "Deck created with ID: 1694938000000" "1694938000000" = true :=
  ⟨fun _ _ _ _ => rfl, fun _ _ => rfl, runTool_requests, rfl, by decide⟩

/-- Every formatter whose declared read set is empty produces a payload
depending on the remote result alone, not on the caller arguments. -/
theorem applyFmt_args_independent {fmt : FmtSpec}
    (h : fmt.fieldsRead = []) (args args' R : Json) :
    applyFmt args R fmt = applyFmt args' R fmt := by
  rcases fmt <;> simp_all [FmtSpec.fieldsRead, applyFmt]

/-- Every registered tool except the two status lines that interpolate a
caller argument (`guiAnswerCard`, `guiDeckOverview`) has a formatter with
an empty read set. -/
def fmtReadsNothing : Bool :=
  toolRegistry.all fun p =>
    p.fst == "guiAnswerCard" || p.fst == "guiDeckOverview" ||
      p.snd.fmt.fieldsRead.isEmpty

theorem fmtReadsNothing_holds : fmtReadsNothing = true := by decide

/-- C5 (confirmed). Whenever the endpoint replies `{error: null, result:
R}`: the invocation returns `R` unchanged; every registered action whose
validation passed succeeds — never raising — with exactly one `"text"`
block whose payload is the registered per-action formatter applied to
`R` (a complete JSON rendering, a status line branching on the
truthiness of `R`, an interpolation of `R`, or the raw `R`); for every
tool except the two status lines that also interpolate a caller argument
(`guiAnswerCard`, `guiDeckOverview`) that payload depends on `R` alone;
for JSON-rendered actions it is the complete structural rendering of
`R`, dropping no field; and the `suspend` example with reply
`{error: null, result: false}` returns the already-suspended status line
instead of raising. -/
theorem c5_round_trip :
    (∀ (ep : Endpoint) (action : String) (params : List (String × Json))
        (version : Int) (body R : Json),
        ep ⟨ANKI_CONNECT_URL, action, params, version⟩ = .ok body →
        getField body "error" = some .null →
        getField body "result" = some R →
        (invokeAnkiConnect ep action params version).fst = .ok R) ∧
    (∀ (impl : ToolImpl) (ep : Endpoint) (args body R : Json),
        runChecks args impl.checks = none →
        ep ⟨ANKI_CONNECT_URL, impl.action, buildParams args impl.params, 6⟩ = .ok body →
        getField body "error" = some .null →
        getField body "result" = some R →
        runTool impl ep args =
          (.ok { content := [{ type := "text", text := applyFmt args R impl.fmt }] },
           [⟨ANKI_CONNECT_URL, impl.action, buildParams args impl.params, 6⟩])) ∧
    (∀ (n : String) (impl : ToolImpl), (n, impl) ∈ toolRegistry →
        n ≠ "guiAnswerCard" → n ≠ "guiDeckOverview" →
        ∀ (args args' R : Json),
          applyFmt args R impl.fmt = applyFmt args' R impl.fmt) ∧
    (∀ (impl : ToolImpl) (ep : Endpoint) (args body R : Json),
        runChecks args impl.checks = none →
        ep ⟨ANKI_CONNECT_URL, impl.action, buildParams args impl.params, 6⟩ = .ok body →
        getField body "error" = some .null →
        getField body "result" = some R →
        impl.fmt = .jsonPretty →
        (runTool impl ep args).fst =
          .ok { content := [{ type := "text", text := .str (stringify R) }] }) ∧
    handleToolCall
        (constEndpoint (.obj [("error", .null), ("result", .bool false)]))
        "suspend" (.obj [("cards", .arr [.num 12345])]) =
      (.ok { content := [{ type := "text",
                           text := .str "Suspend cards: Failed (possibly already suspended)" }] },
       [⟨ANKI_CONNECT_URL, "suspend", [("cards", .arr [.num 12345])], 6⟩]) := by
  refine ⟨?_, ?_, ?_, ?_, rfl⟩
  · intro ep action params version body R hep herr hres
    exact invokeAnkiConnect_ok hep herr hres
  · intro impl ep args body R hck hep herr hres
    unfold runTool
    rw [hck]
    rcases hi : invokeAnkiConnect ep impl.action (buildParams args impl.params)
      with ⟨res, req⟩
    have hfst : res = .ok R := by
      have h := invokeAnkiConnect_ok hep herr hres
      rw [hi] at h
      exact h
    have hreq : req = ⟨ANKI_CONNECT_URL, impl.action, buildParams args impl.params, 6⟩ := by
      have h := invokeAnkiConnect_request ep impl.action (buildParams args impl.params) 6
      rw [hi] at h
      exact h
    subst hfst
    subst hreq
    simp
  · intro n impl hmem h1 h2 args args' R
    have hQ := fmtReadsNothing_holds
    unfold fmtReadsNothing at hQ
    rw [List.all_eq_true] at hQ
    have hQ1 := hQ (n, impl) hmem
    simp only [Bool.or_eq_true, beq_iff_eq] at hQ1
    rcases hQ1 with (hq | hq) | hq
    · exact absurd hq h1
    · exact absurd hq h2
    · exact applyFmt_args_independent (List.isEmpty_iff.mp hq) args args' R
  · intro impl ep args body R hck hep herr hres hfmt
    unfold runTool
    rw [hck]
    rcases hi : invokeAnkiConnect ep impl.action (buildParams args impl.params)
      with ⟨res, req⟩
    have hfst : res = .ok R := by
      have h := invokeAnkiConnect_ok hep herr hres
      rw [hi] at h
      exact h
    subst hfst
    simp [applyFmt, hfmt]

/-- C5 witness: the invoker-level unwrap and the JSON rendering at
`getEaseFactors`, the universal dispatcher-level round trip and the
result-only payload dependency at `suspend` with reply
`{error: null, result: false}`. -/
theorem c5_round_trip_witness :
    (invokeAnkiConnect
        (constEndpoint (.obj [("error", .null), ("result", .arr [.num 2500, .num 2750])]))
        "getEaseFactors" [("cards", .arr [.num 1, .num 2])] 6).fst =
      .ok (.arr [.num 2500, .num 2750]) ∧
    runTool handleSuspend
        (constEndpoint (.obj [("error", .null), ("result", .bool false)]))
        (.obj [("cards", .arr [.num 12345])]) =
      (.ok { content := [{ type := "text", text := applyFmt (.obj [("cards", .arr [.num 12345])]) (.bool false) handleSuspend.fmt }] },
       [⟨ANKI_CONNECT_URL, "suspend", [("cards", .arr [.num 12345])], 6⟩]) ∧
    applyFmt (.obj [("cards", .arr [.num 12345])]) (.bool false) handleSuspend.fmt =
      applyFmt .null (.bool false) handleSuspend.fmt ∧
    (runTool handleGetEaseFactors
        (constEndpoint (.obj [("error", .null), ("result", .arr [.num 2500, .num 2750])]))
        (.obj [("cards", .arr [.num 1, .num 2])])).fst =
      .ok { content := [{ type := "text", text := .str (stringify (.arr [.num 2500, .num 2750])) }] } :=
  ⟨c5_round_trip.1
      (constEndpoint (.obj [("error", .null), ("result", .arr [.num 2500, .num 2750])]))
      "getEaseFactors" [("cards", .arr [.num 1, .num 2])] 6 _ _ rfl rfl rfl,
   c5_round_trip.2.1 handleSuspend
      (constEndpoint (.obj [("error", .null), ("result", .bool false)]))
      (.obj [("cards", .arr [.num 12345])]) _ _ rfl rfl rfl rfl,
   c5_round_trip.2.2.1 "suspend" handleSuspend (by decide) (by decide) (by decide)
      (.obj [("cards", .arr [.num 12345])]) .null (.bool false),
   c5_round_trip.2.2.2.1 handleGetEaseFactors
      (constEndpoint (.obj [("error", .null), ("result", .arr [.num 2500, .num 2750])]))
      (.obj [("cards", .arr [.num 1, .num 2])]) _ _ rfl rfl rfl rfl rfl⟩

/-- C7 (confirmed). For every tool name absent from the registry and
every argument value, dispatch falls through to the terminal `default`
branch and fails with a `ToolNotFoundError` naming the tool, before any
network activity. -/
theorem c7_unknown_tool :
    ∀ (name : String) (args : Json) (ep : Endpoint),
      name ∉ toolRegistry.map Prod.fst →
      handleToolCall ep name args =
        (.error (.mcp ⟨.ToolNotFound, "Tool not found: " ++ name⟩), []) := by
  intro name args ep h
  unfold handleToolCall
  rw [lookupImpl_eq_none h]

/-- C7 witness: the name `doesNotExist` is dispatched to
`ToolNotFoundError` whatever the arguments. -/
theorem c7_unknown_tool_witness :
    handleToolCall (constEndpoint .null) "doesNotExist"
        (.obj [("anything", .num 1)]) =
      (.error (.mcp ⟨.ToolNotFound, "Tool not found: doesNotExist"⟩), []) :=
  c7_unknown_tool "doesNotExist" (.obj [("anything", .num 1)])
    (constEndpoint .null) (by decide)

/-- C8 (confirmed). The catalogue holds exactly one descriptor per
registered action: the advertised names carry no duplicates, they are
exactly the dispatchable names of the registry in the same order, and a
name is advertised precisely when `handleToolCall` can dispatch it. -/
theorem c8_catalogue_cardinality :
    (getTools.map ToolDescriptor.name).Nodup ∧
    getTools.map ToolDescriptor.name = toolRegistry.map Prod.fst ∧
    ∀ n : String,
      n ∈ getTools.map ToolDescriptor.name ↔
        (lookupImpl toolRegistry n).isSome = true := by
  refine ⟨by decide, by decide, fun n => ⟨fun h => ?_, fun h => ?_⟩⟩
  · have hm : n ∈ toolRegistry.map Prod.fst := by
      have he : getTools.map ToolDescriptor.name = toolRegistry.map Prod.fst := by
        decide
      rwa [he] at h
    exact lookupImpl_isSome hm
  · obtain ⟨impl, himpl⟩ := Option.isSome_iff_exists.mp h
    have hm : (n, impl) ∈ toolRegistry := lookupImpl_mem himpl
    have : n ∈ toolRegistry.map Prod.fst :=
      List.mem_map.mpr ⟨(n, impl), hm, rfl⟩
    have he : getTools.map ToolDescriptor.name = toolRegistry.map Prod.fst := by
      decide
    rwa [← he] at this

/-- C2 (amended). For every registered action and every field its schema
declares required: omitting that field (with every check not reading it
passing) fails with an `InvalidParametersError` whose message names the
field, before any network activity; once every validation check passes, a
call never fails with a typed parameter error; but presence with the
declared type is *not* sufficient — the source tests truthiness, so falsy
well-typed values such as `""` or `0` are rejected (see the
counterexample).  For `createDeck`, any non-empty string `deck` passes
validation. -/
theorem c2_required_field_validation :
    (∀ (n : String) (impl : ToolImpl), (n, impl) ∈ toolRegistry →
      ∀ d ∈ getTools, d.name = n →
      ∀ f ∈ d.required, ∀ (ep : Endpoint) (args : Json),
        getField args f = none →
        (∀ c ∈ impl.checks, c.involves f = false → checkPasses args c = true) →
        ∃ c ∈ impl.checks, c.involves f = true ∧ mentions c.msg f = true ∧
          runTool impl ep args = (.error (.mcp ⟨.InvalidParams, c.msg⟩), [])) ∧
    (∀ (impl : ToolImpl) (ep : Endpoint) (args : Json),
        (∀ c ∈ impl.checks, checkPasses args c = true) →
        ∀ e, (runTool impl ep args).fst ≠ .error (.mcp e)) ∧
    (∀ (ep : Endpoint) (s : String), s ≠ "" →
        ∀ e, (runTool handleCreateDeck ep (.obj [("deck", .str s)])).fst ≠
          .error (.mcp e)) := by
  refine ⟨?_, ?_, ?_⟩
  · intro n impl hmem d hd hname f hf ep args habs hothers
    have hQ := requiredChecksNamed_holds
    unfold requiredChecksNamed at hQ
    rw [List.all_eq_true] at hQ
    have hQ1 := hQ (n, impl) hmem
    rw [List.all_eq_true] at hQ1
    have hQ2 := hQ1 d hd
    rw [hname] at hQ2
    simp only [bne_self_eq_false, Bool.false_or] at hQ2
    rw [List.all_eq_true] at hQ2
    have hQ3 := hQ2 f hf
    rcases hfind : impl.checks.find? (fun c => c.involves f) with _ | c
    · rw [hfind] at hQ3
      cases hQ3
    · rw [hfind] at hQ3
      have hcmem : c ∈ impl.checks := List.mem_of_find?_eq_some hfind
      have hcinv : c.involves f = true := by
        have := List.find?_some hfind
        simpa using this
      have hfail : ∀ c' ∈ impl.checks, c'.involves f = true →
          checkPasses args c' = false := fun c' _ hinv =>
        checkPasses_false_of_absent hinv habs
      have hrun : runChecks args impl.checks = some ⟨.InvalidParams, c.msg⟩ :=
        runChecks_first_involving hothers hfail hfind
      exact ⟨c, hcmem, hcinv, hQ3, runTool_of_checks_fail hrun ep⟩
  · intro impl ep args h e
    exact runTool_no_mcp_of_checks_pass (runChecks_none_of_all_pass h) ep e
  · intro ep s hs e
    refine runTool_no_mcp_of_checks_pass (runChecks_none_of_all_pass ?_) ep e
    intro c hc
    simp only [handleCreateDeck, List.mem_singleton] at hc
    subst hc
    simp [checkPasses, getField, lookupField, truthyOpt, truthy, hs]

/-- C2 counterexample. The required field `deck` of `createDeck` supplied
as the empty string — present and of the declared type `string` — is
rejected by the truthiness test as if it were missing, contradicting the
claim that presence plus correct type is sufficient (likewise `card: 0`
on `setSpecificValueOfCard`). -/
theorem c2_falsy_required_value_rejected :
    getField (.obj [("deck", .str "")]) "deck" = some (.str "") ∧
    Json.isStr (.str "") = true ∧
    runTool handleCreateDeck (constEndpoint .null) (.obj [("deck", .str "")]) =
      (.error (.mcp ⟨.InvalidParams, "Missing required parameter: deck"⟩), []) ∧
    runTool handleSetSpecificValueOfCard (constEndpoint .null)
        (.obj [("card", .num 0), ("keys", .arr [.str "due"]),
               ("newValues", .arr [.num 5])]) =
      (.error (.mcp ⟨.InvalidParams, "Missing required parameter: card (card ID)"⟩), []) :=
  ⟨rfl, rfl, rfl, rfl⟩

/-- C2 witness: omitting `deck` on `createDeck` yields the
`InvalidParams` error naming `deck`, with no request sent. -/
theorem c2_required_field_witness :
    ∃ c ∈ handleCreateDeck.checks, c.involves "deck" = true ∧
      mentions c.msg "deck" = true ∧
      runTool handleCreateDeck (constEndpoint .null) (.obj []) =
        (.error (.mcp ⟨.InvalidParams, c.msg⟩), []) :=
  c2_required_field_validation.1 "createDeck" handleCreateDeck (by decide)
    (ToolDescriptor.mk "createDeck" ["deck"] ["deck"]) (by decide) rfl
    "deck" (by decide) (constEndpoint .null) (.obj []) rfl
    (by decide)

/-- A failing validation run throws the message of one of its checks. -/
theorem runChecks_some {args : Json} :
    ∀ {cs : List Check} {e : McpError}, runChecks args cs = some e →
      ∃ c ∈ cs, checkPasses args c = false ∧ e = ⟨.InvalidParams, c.msg⟩ := by
  intro cs
  induction cs with
  | nil => intro e h; simp [runChecks] at h
  | cons c rest ih =>
      intro e h
      rcases hc : checkPasses args c with _ | _
      · simp [runChecks, hc] at h
        exact ⟨c, List.mem_cons_self c rest, hc, h.symm⟩
      · simp [runChecks, hc] at h
        obtain ⟨d, hd, hdf, hde⟩ := ih h
        exact ⟨d, List.mem_cons_of_mem c hd, hdf, hde⟩

/-- C6 (confirmed). For the two paired-array actions of the source
(`setEaseFactors` with `cards`/`easeFactors`, `setSpecificValueOfCard`
with `keys`/`newValues`): unequal lengths always fail with the
`InvalidParametersError` length message and no request is sent, while
equal-length arrays of any size never trigger the length check; and the
end-to-end example `setEaseFactors {cards: [1, 2], easeFactors: [2500]}`
fails before any network activity. -/
theorem c6_paired_array_length_check :
    (∀ (ep : Endpoint) (args : Json) (ca ea : List Json),
        getField args "cards" = some (.arr ca) →
        getField args "easeFactors" = some (.arr ea) →
        ca.length ≠ ea.length →
        runTool handleSetEaseFactors ep args =
          (.error (.mcp ⟨.InvalidParams,
            "Cards and easeFactors arrays must have the same length"⟩), [])) ∧
    (∀ (ep : Endpoint) (args : Json) (c : Int) (ks vs : List Json),
        getField args "card" = some (.num c) → c ≠ 0 →
        getField args "keys" = some (.arr ks) →
        getField args "newValues" = some (.arr vs) →
        ks.length ≠ vs.length →
        runTool handleSetSpecificValueOfCard ep args =
          (.error (.mcp ⟨.InvalidParams,
            "Keys and newValues arrays must have the same length"⟩), [])) ∧
    (∀ (ep : Endpoint) (args : Json) (ca ea : List Json),
        getField args "cards" = some (.arr ca) →
        getField args "easeFactors" = some (.arr ea) →
        ca.length = ea.length →
        (runTool handleSetEaseFactors ep args).fst ≠
          .error (.mcp ⟨.InvalidParams,
            "Cards and easeFactors arrays must have the same length"⟩)) ∧
    (∀ (ep : Endpoint) (args : Json) (ks vs : List Json),
        getField args "keys" = some (.arr ks) →
        getField args "newValues" = some (.arr vs) →
        ks.length = vs.length →
        (runTool handleSetSpecificValueOfCard ep args).fst ≠
          .error (.mcp ⟨.InvalidParams,
            "Keys and newValues arrays must have the same length"⟩)) ∧
    handleToolCall (constEndpoint .null) "setEaseFactors"
        (.obj [("cards", .arr [.num 1, .num 2]), ("easeFactors", .arr [.num 2500])]) =
      (.error (.mcp ⟨.InvalidParams,
        "Cards and easeFactors arrays must have the same length"⟩), []) := by
  refine ⟨?_, ?_, ?_, ?_, rfl⟩
  · intro ep args ca ea hca hea hlen
    have hrun : runChecks args handleSetEaseFactors.checks =
        some ⟨.InvalidParams, "Cards and easeFactors arrays must have the same length"⟩ := by
      simp [handleSetEaseFactors, runChecks, checkPasses, hca, hea,
        truthyOpt, truthy, isArrayOpt, sameLen, hlen]
    exact runTool_of_checks_fail hrun ep
  · intro ep args c ks vs hc hcz hks hvs hlen
    have hrun : runChecks args handleSetSpecificValueOfCard.checks =
        some ⟨.InvalidParams, "Keys and newValues arrays must have the same length"⟩ := by
      simp [handleSetSpecificValueOfCard, runChecks, checkPasses, hc, hks, hvs,
        truthyOpt, truthy, isNumberOpt, isArrayOpt, sameLen, hlen, hcz]
    exact runTool_of_checks_fail hrun ep
  · intro ep args ca ea hca hea hlen
    have hrun : runChecks args handleSetEaseFactors.checks = none := by
      simp [handleSetEaseFactors, runChecks, checkPasses, hca, hea,
        truthyOpt, truthy, isArrayOpt, sameLen, hlen]
    intro h
    exact runTool_no_mcp_of_checks_pass hrun ep _ h
  · intro ep args ks vs hks hvs hlen h
    rcases hrc : runChecks args handleSetSpecificValueOfCard.checks with _ | e
    · exact runTool_no_mcp_of_checks_pass hrc ep _ h
    · rw [runTool_of_checks_fail hrc ep] at h
      simp only [Prod.fst] at h
      cases h
      obtain ⟨c, hcmem, hcfail, hce⟩ := runChecks_some hrc
      have hmsg : c.msg = "Keys and newValues arrays must have the same length" :=
        (congrArg McpError.message hce).symm
      simp only [handleSetSpecificValueOfCard, List.mem_cons,
        List.not_mem_nil, or_false] at hcmem
      rcases hcmem with hc | hc | hc | hc <;> subst hc
      · exact absurd hmsg (by decide)
      · simp [checkPasses, hks, truthyOpt, truthy, isArrayOpt] at hcfail
      · simp [checkPasses, hvs, truthyOpt, truthy, isArrayOpt] at hcfail
      · simp [checkPasses, hks, hvs, sameLen, hlen] at hcfail

/-- C6 witness: the length-mismatch example input (`cards` of length 2,
`easeFactors` of length 1) fails with the length error and no request. -/
theorem c6_length_mismatch_witness :
    runTool handleSetEaseFactors (constEndpoint .null)
        (.obj [("cards", .arr [.num 1, .num 2]), ("easeFactors", .arr [.num 2500])]) =
      (.error (.mcp ⟨.InvalidParams,
        "Cards and easeFactors arrays must have the same length"⟩), []) :=
  c6_paired_array_length_check.1 (constEndpoint .null)
    (.obj [("cards", .arr [.num 1, .num 2]), ("easeFactors", .arr [.num 2500])])
    [.num 1, .num 2] [.num 2500] rfl rfl (by decide)

/-- C9 (amended). Every successful call returns exactly one content
block, of type `"text"`, with no `isError` flag; the payload is a string
for every tool except the three raw pass-throughs (`retrieveMediaFile`,
`getMediaDirPath`, `getCollectionStatsHTML`), which place the unconverted
remote result in `text` (see the counterexample); and the outer boundary
is the only producer of `isError` blocks, doing so exactly when it
catches a non-typed (invoker) exception. -/
theorem c9_content_shape :
    (∀ (ep : Endpoint) (name : String) (args : Json) (r : ToolResult),
        (handleToolCall ep name args).fst = .ok r →
        r.isError = none ∧
        (∃ t, r.content = [⟨"text", t⟩]) ∧
        (name ∉ rawResultTools → ∃ s, r.content = [⟨"text", .str s⟩])) ∧
    (∀ (ep : Endpoint) (name : String) (args : Json) (r : ToolResult)
        (reqs : List Request),
        callToolRequest ep name args = (.reply r, reqs) →
        r.isError = some true →
        ∃ e : InvokeError, (handleToolCall ep name args).fst =
          .error (.invoke e)) := by
  constructor
  · intro ep name args r h
    refine ⟨(handleToolCall_ok_shape h).1, (handleToolCall_ok_shape h).2, ?_⟩
    intro hraw
    rcases hlk : lookupImpl toolRegistry name with _ | impl
    · rw [handleToolCall] at h
      rw [hlk] at h
      simp at h
    · rw [handleToolCall_lookup hlk ep args] at h
      obtain ⟨result, hr⟩ := runTool_ok_shape h
      subst hr
      have hmem : (name, impl) ∈ toolRegistry := lookupImpl_mem hlk
      have hQ := nonRawProducesString_holds
      unfold nonRawProducesString at hQ
      rw [List.all_eq_true] at hQ
      have hQ1 := hQ (name, impl) hmem
      rcases hor : rawResultTools.contains name with _ | _
      · rw [hor] at hQ1
        simp only [Bool.false_or] at hQ1
        obtain ⟨s, hs⟩ := applyFmt_str_of_producesString hQ1 args result
        exact ⟨s, by rw [hs]⟩
      · exact absurd (List.elem_iff.mp hor) hraw
  · intro ep name args r reqs h hflag
    rcases hht : handleToolCall ep name args with ⟨res, reqs'⟩
    rcases res with e | r'
    · rcases e with e | e
      · unfold callToolRequest at h
        rw [hht] at h
        cases h
      · exact ⟨e, rfl⟩
    · unfold callToolRequest at h
      rw [hht] at h
      simp only [BoundaryOutcome.reply.injEq, Prod.mk.injEq] at h
      have hok : (handleToolCall ep name args).fst = .ok r' := by
        rw [hht]
      have hnone := (handleToolCall_ok_shape hok).1
      rw [← h.1] at hflag
      rw [hnone] at hflag
      cases hflag

/-- C9 counterexample. A successful `getMediaDirPath` call against an
endpoint replying `{error: null, result: 123}` returns a content block
whose `text` is the number `123`, not a string: the handler passes the
raw result through (`text: path`). -/
theorem c9_raw_text_not_string :
    (handleToolCall (constEndpoint (.obj [("error", .null), ("result", .num 123)]))
        "getMediaDirPath" .null).fst =
      .ok { content := [{ type := "text", text := .num 123 }] } ∧
    Json.isStr (.num 123) = false :=
  ⟨rfl, rfl⟩

/-- C9 witness: a successful `getDeckNames` call yields one `"text"`
block with a string payload and no `isError` flag. -/
theorem c9_content_shape_witness :
    ({ content := [{ type := "text", text := .str "[\"Default\"]" }] } :
        ToolResult).isError = none ∧
    (∃ t, ({ content := [{ type := "text", text := .str "[\"Default\"]" }] } :
        ToolResult).content = [⟨"text", t⟩]) ∧
    ("getDeckNames" ∉ rawResultTools → ∃ s,
      ({ content := [{ type := "text", text := .str "[\"Default\"]" }] } :
        ToolResult).content = [⟨"text", .str s⟩]) :=
  c9_content_shape.1
    (constEndpoint (.obj [("error", .null), ("result", .arr [.str "Default"])]))
    "getDeckNames" .null
    { content := [{ type := "text", text := .str "[\"Default\"]" }] } rfl

/-- C10 (amended). Caller-supplied argument fields outside a tool's input
schema are inert: appending such a field to the arguments changes nothing
about the call (so it can neither fail validation nor be forwarded); the
`params` object of the single request is exactly the handler's copy list,
whose keys all come from that list; a `!== undefined`-guarded optional
field (`warning_check`) is forwarded exactly when supplied; but a
truthiness-guarded optional field (`scopes`/`actions` on `apiReflect`,
`pattern`, `css`, ...) is forwarded only when supplied *truthy* — a
supplied falsy value of the declared type is dropped (see the
counterexample). -/
theorem c10_unknown_fields_frame :
    (∀ (n : String) (impl : ToolImpl), (n, impl) ∈ toolRegistry →
      ∀ d ∈ getTools, d.name = n →
      ∀ g, g ∉ d.properties →
      ∀ (l : List (String × Json)) (v : Json) (ep : Endpoint),
        runTool impl ep (.obj (l ++ [(g, v)])) = runTool impl ep (.obj l)) ∧
    (∀ (impl : ToolImpl) (ep : Endpoint) (args : Json) (req : Request),
        req ∈ (runTool impl ep args).snd →
        req.params = buildParams args impl.params) ∧
    (∀ (args : Json) (ps : List ParamSpec) (k : String) (v : Json),
        (k, v) ∈ buildParams args ps → k ∈ ps.map ParamSpec.fieldRead) ∧
    (∀ (args : Json) (v : Json), getField args "warning_check" = some v →
        buildParams args handleSetSpecificValueOfCard.params =
          [("card", jget args "card"), ("keys", jget args "keys"),
           ("newValues", jget args "newValues"), ("warning_check", v)]) ∧
    (∀ (args : Json), getField args "warning_check" = none →
        buildParams args handleSetSpecificValueOfCard.params =
          [("card", jget args "card"), ("keys", jget args "keys"),
           ("newValues", jget args "newValues")]) ∧
    (∀ (args : Json) (v : Json), getField args "scopes" = some v →
        truthy v = true → getField args "actions" = none →
        buildParams args handleApiReflect.params = [("scopes", v)]) := by
  refine ⟨?_, ?_, ?_, ?_, ?_, ?_⟩
  · intro n impl hmem d hd hname g hg l v ep
    have hQ := relevantWithinSchema_holds
    unfold relevantWithinSchema at hQ
    rw [List.all_eq_true] at hQ
    have hQ1 := hQ (n, impl) hmem
    rw [List.all_eq_true] at hQ1
    have hQ2 := hQ1 d hd
    rw [hname] at hQ2
    simp only [bne_self_eq_false, Bool.false_or] at hQ2
    rw [List.all_eq_true] at hQ2
    refine runTool_congr ?_
    intro f hf
    have hfp : f ∈ d.properties := List.elem_iff.mp (hQ2 f hf)
    have hfg : f ≠ g := fun he => hg (he ▸ hfp)
    simp only [getField]
    exact lookupField_append_ne hfg
  · intro impl ep args req hreq
    rcases runTool_requests impl ep args with h | h
    · rw [h] at hreq
      cases hreq
    · rw [h] at hreq
      simp only [List.mem_singleton] at hreq
      subst hreq
      rfl
  · intro args ps
    induction ps with
    | nil => intro k v h; cases h
    | cons p rest ih =>
        intro k v h
        simp only [List.map_cons, List.mem_cons]
        rcases p with f | f | f
        · simp only [buildParams, List.mem_cons, Prod.mk.injEq] at h
          rcases h with ⟨hk, _⟩ | h
          · exact Or.inl hk
          · exact Or.inr (ih k v h)
        · rcases hf : getField args f with _ | w
          · simp only [buildParams, hf] at h
            exact Or.inr (ih k v h)
          · simp only [buildParams, hf] at h
            rcases ht : truthy w with _ | _
            · rw [ht] at h
              rw [if_neg (by simp)] at h
              exact Or.inr (ih k v h)
            · rw [ht] at h
              rw [if_pos rfl] at h
              rcases List.mem_cons.mp h with hh | hh
              · exact Or.inl (congrArg Prod.fst hh)
              · exact Or.inr (ih k v hh)
        · rcases hf : getField args f with _ | w
          · simp only [buildParams, hf] at h
            exact Or.inr (ih k v h)
          · simp only [buildParams, hf] at h
            rcases List.mem_cons.mp h with hh | hh
            · exact Or.inl (congrArg Prod.fst hh)
            · exact Or.inr (ih k v hh)
  · intro args v h
    simp [handleSetSpecificValueOfCard, buildParams, h]
  · intro args h
    simp [handleSetSpecificValueOfCard, buildParams, h]
  · intro args v hs ht ha
    simp [handleApiReflect, buildParams, hs, ht, ha]

/-- C10 counterexample. The declared optional field `pattern` of
`getMediaFilesNames`, supplied with the declared type `string` but the
falsy value `""`, is dropped from the forwarded `params`, which is sent
empty — the truthiness guard `if (arguments_?.pattern)` does not forward
every supplied optional field. -/
theorem c10_optional_field_dropped :
    getField (.obj [("pattern", .str "")]) "pattern" = some (.str "") ∧
    Json.isStr (.str "") = true ∧
    handleToolCall (constEndpoint (.obj [("error", .null), ("result", .arr [])]))
        "getMediaFilesNames" (.obj [("pattern", .str "")]) =
      (.ok { content := [{ type := "text", text := .str "[]" }] },
       [⟨ANKI_CONNECT_URL, "getMediaFilesNames", [], 6⟩]) :=
  ⟨rfl, rfl, rfl⟩

/-- C10 witness: appending an undeclared field `foo` to the `createDeck`
arguments changes nothing about the call. -/
theorem c10_unknown_fields_witness :
    runTool handleCreateDeck (constEndpoint .null)
        (.obj ([("deck", .str "Spanish")] ++ [("foo", .num 7)])) =
      runTool handleCreateDeck (constEndpoint .null)
        (.obj [("deck", .str "Spanish")]) :=
  c10_unknown_fields_frame.1 "createDeck" handleCreateDeck (by decide)
    (ToolDescriptor.mk "createDeck" ["deck"] ["deck"]) (by decide) rfl
    "foo" (by decide) [("deck", .str "Spanish")] (.num 7)
    (constEndpoint .null)
